import Mathlib

/-!
# Food-sharing mobile client: discovery and submission pipeline

A shallow embedding of the asynchronous core of the tab screens
(`donate.jsx`, `discover.jsx`, `profile-setup.jsx`, `profile.jsx`): the image
upload loop, the listing submission handler, the create-listing and profile
mutations, the listing-search query, the location effects with the address
line, the profile fetchers and the render guards of the donate screen.

Effects are made explicit: every call to an external collaborator (the upload
hook, `fetch`, `Alert`, `console`, the query client) appends an event to a
trace, and the collaborators' answers are read from an environment `Env`.
JavaScript exceptions are the `error` case of `Except`.
-/

namespace HH3

/-! ## JavaScript values -/

/-- A JavaScript value as far as this program inspects it.  `num` holds a
number with an integral value (a safe integer); `obj` stands for any object,
named by what `String(obj)` yields. -/
inductive JSVal
  | undefined
  | null
  | bool (b : Bool)
  | num (n : Int)
  | str (s : String)
  | obj (shown : String)
  deriving DecidableEq, Repr

/-- JavaScript truthiness (`ToBoolean`), as used by `if (x)`, `!x` and `||`. -/
def truthy : JSVal → Bool
  | .undefined => false
  | .null => false
  | .bool b => b
  | .num n => n != 0
  | .str s => s != ""
  | .obj _ => true

/-- JavaScript `ToString` on the modelled values. -/
def jsToString : JSVal → String
  | .undefined => "undefined"
  | .null => "null"
  | .bool true => "true"
  | .bool false => "false"
  | .num n => toString n
  | .str s => s
  | .obj shown => shown

/-- The `message` of `new Error(arg)`: absent argument gives the empty
message, anything else is converted with `ToString`. -/
def errorMessageOf : JSVal → String
  | .undefined => ""
  | v => jsToString v

/-- A thrown JavaScript value (a rejected promise or a `throw`). -/
inductive JSError
  | error (message : String)
  | rangeError (message : String)
  | jsonError (message : String)
  | typeError (message : String)
  | thrown (value : JSVal)
  deriving DecidableEq, Repr

/-- The text of `error.message` for a caught value: the message of an `Error`
instance; a thrown value that is not an `Error` has no such property and
reads as `undefined`. -/
def JSError.message : JSError → String
  | .error m => m
  | .rangeError m => m
  | .jsonError m => m
  | .typeError m => m
  | .thrown _ => "undefined"

/-! ## Data model -/

/-- A locally selected image (an `ImagePicker` asset). -/
structure Asset where
  uri : String
  deriving DecidableEq, Repr

/-- Device coordinates (`location.coords`); a finite double is a rational. -/
structure Coords where
  latitude : Rat
  longitude : Rat
  deriving DecidableEq, Repr

/-- The `formData` state of the donate screen (donate.jsx:35-47).  The text
fields are only ever set from `TextInput.onChangeText`, `category_id` from a
category object of the server. -/
structure FormData where
  title : String
  description : String
  category_id : JSVal
  quantity : String
  unit : String
  expiry_date : String
  pickup_location : String
  pickup_instructions : String
  safety_notes : String
  dietary_info : String
  image_urls : List JSVal
  deriving DecidableEq, Repr

/-- The object `listingData` built by `handleSubmit` (donate.jsx:177-186).
`quantity` is the result of `parseInt` (`none` is a result that is not a
finite number, `NaN` or an infinity, which is sent as `null`); `expiry_date` and
`image_urls` are `null` when `none`; the coordinates are `undefined` when
`none`. -/
structure ListingData where
  title : String
  description : String
  category_id : JSVal
  quantity : Option Int
  unit : String
  expiry_date : Option String
  pickup_location : String
  pickup_instructions : String
  safety_notes : String
  dietary_info : String
  image_urls : Option (List JSVal)
  pickup_latitude : Option Rat
  pickup_longitude : Option Rat
  deriving DecidableEq, Repr

/-- The `profileData` object of profile-setup.jsx:85-89. -/
structure ProfileData where
  user_type : String
  full_name : String
  phone : String
  address : String
  organization_name : String
  organization_type : String
  latitude : Option Rat
  longitude : Option Rat
  deriving DecidableEq, Repr

/-- A parsed JSON body, one level deep: the program only reads the `error`
property of it.  An object lists each of its property names once. -/
inductive Json
  | null
  | bool (b : Bool)
  | num (n : Int)
  | str (s : String)
  | arr (items : List JSVal)
  | obj (fields : List (String × JSVal))
  deriving DecidableEq, Repr

/-- What `response.json()` yields: the parsed body or, when the body text is
not JSON, a rejection with a `SyntaxError` of the given message. -/
inductive Body
  | parsed (value : Json)
  | invalid (message : String)
  deriving DecidableEq, Repr

/-- A `fetch` response: its status and its body. -/
structure Response where
  status : Nat
  body : Body
  deriving DecidableEq, Repr

/-- The `response.ok` flag: the status is in the range 200-299. -/
def Response.ok (r : Response) : Bool :=
  decide (200 ≤ r.status) && decide (r.status ≤ 299)

/-- What a `fetch` call does: reject with a `TypeError` of the given message
(network failure) or resolve to a response. -/
inductive FetchOutcome
  | rejected (message : String)
  | resolved (r : Response)
  deriving DecidableEq, Repr

/-- What the line `const { url, error } = await upload(...)` does: throw (the
call rejects, or it resolves to `undefined` or `null` and the destructuring
throws), or bind `url` and `error` to the properties of the answer
(`undefined` when absent). -/
inductive UploadOutcome
  | threw (e : JSError)
  | resolved (url : JSVal) (error : JSVal)
  deriving DecidableEq, Repr

/-- One element of a query key. -/
inductive KeyElem
  | val (v : JSVal)
  | coords (c : Coords)
  deriving DecidableEq, Repr

/-- A query key of the query client: an array. -/
abbrev QueryKey := List KeyElem

/-! ## Effects -/

/-- An observable action of the program on a collaborator. -/
inductive Event
  | uploadCall (image : Asset)
  | consoleLog (label : String)
  | consoleError (label : String) (e : JSError)
  | alert (title : String) (message : String)
  | postListing (payload : ListingData)
  | postProfile (payload : ProfileData)
  | invalidateQueries (key : QueryKey)
  | requestPermission
  | getCurrentPosition
  | reverseGeocode (coords : Coords)
  | setLocation (coords : Coords)
  | setPickupLocation (text : String)
  | setAddress (text : String)
  | getListings (params : List (String × String))
  | getProfile
  deriving DecidableEq, Repr

/-- The actions performed so far, oldest first. -/
abbrev Trace := List Event

/-- The answers of the external collaborators.  `upload i image` is what the
`i`-th call of the upload hook (counted from 0 over the whole session) does
when it is handed `image`; `parseDate text` is the ISO-8601 string of
`new Date(text)` and `none` for an invalid date, on which `toISOString`
throws a `RangeError` with message `invalidTimeMessage`;
`nullReadMessage` is the message of the `TypeError` raised by reading a
property of `null`. -/
structure Env where
  upload : Nat → Asset → UploadOutcome
  parseDate : String → Option String
  invalidTimeMessage : String
  nullReadMessage : String
  createListing : ListingData → FetchOutcome
  updateProfile : ProfileData → FetchOutcome

/-- A computation that may throw and that extends the trace. -/
def Eff (α : Type) : Type := Trace → Except JSError α × Trace

/-- Return a value, no effect. -/
def Eff.pure {α : Type} (a : α) : Eff α := fun t => (.ok a, t)

/-- Sequencing: a throw skips the continuation, the trace is kept. -/
def Eff.bind {α β : Type} (m : Eff α) (f : α → Eff β) : Eff β := fun t =>
  match m t with
  | (.ok a, t1) => f a t1
  | (.error e, t1) => (.error e, t1)

/-- The JavaScript `throw`. -/
def Eff.throw {α : Type} (e : JSError) : Eff α := fun t => (.error e, t)

/-- The JavaScript `try { body } catch (e) { handler(e) }`. -/
def Eff.tryCatch {α : Type} (body : Eff α) (handler : JSError → Eff α) : Eff α := fun t =>
  match body t with
  | (.ok a, t1) => (.ok a, t1)
  | (.error e, t1) => handler e t1

/-- Record one action. -/
def emit (ev : Event) : Eff Unit := fun t => (.ok (), t ++ [ev])

instance : Monad Eff where
  pure := Eff.pure
  bind := Eff.bind

instance : MonadExcept JSError Eff where
  throw := Eff.throw
  tryCatch := Eff.tryCatch

/-- Number of upload calls recorded in a trace. -/
def uploadCount (t : Trace) : Nat :=
  (t.filter fun ev => match ev with | .uploadCall _ => true | _ => false).length

/-- The images handed to the upload hook, in call order. -/
def uploadCalls (t : Trace) : List Asset :=
  t.filterMap fun ev => match ev with | .uploadCall a => some a | _ => none

/-- The errors written with `console.error`, in order. -/
def consoleErrors (t : Trace) : List JSError :=
  t.filterMap fun ev => match ev with | .consoleError _ e => some e | _ => none

/-! ## The image upload loop (donate.jsx:140-152) -/

/-- The pair `{ url, error }` destructured from the upload hook's answer. -/
structure UploadAnswer where
  url : JSVal
  error : JSVal
  deriving DecidableEq, Repr

/-- The call `await upload({ reactNativeAsset: image })`. -/
def upload (env : Env) (image : Asset) : Eff UploadAnswer := fun t =>
  match env.upload (uploadCount t) image with
  | .threw e => (.error e, t ++ [.uploadCall image])
  | .resolved url error => (.ok ⟨url, error⟩, t ++ [.uploadCall image])

/-- The `for (const image of selectedImages)` loop of `uploadImages`, with the
array `uploadedUrls` built so far. -/
def uploadImagesLoop (env : Env) : List Asset → List JSVal → Eff (List JSVal)
  | [], uploadedUrls => pure uploadedUrls
  | image :: rest, uploadedUrls => do
    let uploadedUrls ← tryCatch
      (do
        let r ← upload env image
        if truthy r.error then throw (JSError.error (errorMessageOf r.error))
        pure (uploadedUrls ++ [r.url]))
      (fun error => do
        emit (.consoleError "Image upload failed:" error)
        pure uploadedUrls)
    uploadImagesLoop env rest uploadedUrls

/-- The function `uploadImages` of donate.jsx:140-152. -/
def uploadImages (env : Env) (selectedImages : List Asset) : Eff (List JSVal) :=
  uploadImagesLoop env selectedImages []

/-! ### Specification vocabulary for the upload loop -/

/-- An upload succeeded: it did not throw and its `error` is not set. -/
def UploadOutcome.succeeded : UploadOutcome → Bool
  | .threw _ => false
  | .resolved _ error => !truthy error

/-- The url of a successful upload. -/
def UploadOutcome.successUrl : UploadOutcome → Option JSVal
  | .threw _ => none
  | .resolved url error => if truthy error then none else some url

/-- What is caught and logged for a failed upload. -/
def UploadOutcome.failure : UploadOutcome → Option JSError
  | .threw e => some e
  | .resolved _ error => if truthy error then some (.error (errorMessageOf error)) else none

/-- The outcomes of the uploads of `images`, in order, when `k` upload calls
were made before. -/
def outcomesFrom (env : Env) (k : Nat) (images : List Asset) : List UploadOutcome :=
  (images.enumFrom k).map fun p => env.upload p.1 p.2

/-! ## `parseInt` -/

/-- The code points that `parseInt` skips at the start of its argument
(ECMAScript `WhiteSpace` and `LineTerminator`). -/
def isStrWhiteSpace (c : Char) : Bool :=
  let n := c.toNat
  n == 0x09 || n == 0x0A || n == 0x0B || n == 0x0C || n == 0x0D || n == 0x20 ||
  n == 0xA0 || n == 0x1680 || (0x2000 ≤ n && n ≤ 0x200A) || n == 0x2028 ||
  n == 0x2029 || n == 0x202F || n == 0x205F || n == 0x3000 || n == 0xFEFF

/-- The value of a character as a digit, letters counting from 10. -/
def digitValue (c : Char) : Option Nat :=
  let n := c.toNat
  if 48 ≤ n && n ≤ 57 then some (n - 48)
  else if 97 ≤ n && n ≤ 122 then some (n - 97 + 10)
  else if 65 ≤ n && n ≤ 90 then some (n - 65 + 10)
  else none

/-- Whether a character is a digit of the given radix. -/
def isRadixDigit (radix : Nat) (c : Char) : Bool :=
  match digitValue c with
  | some d => decide (d < radix)
  | none => false

/-- The number written by a list of digits of the given radix. -/
def digitsValue (radix : Nat) (ds : List Char) : Nat :=
  ds.foldl (fun acc c => acc * radix + (digitValue c).getD 0) 0

/-- How many binary digits a natural number has beyond 53, counted by halving
at most `fuel` times. -/
def excessBits : Nat → Nat → Nat
  | 0, _ => 0
  | fuel + 1, n => if n < 9007199254740992 then 0 else excessBits fuel (n / 2) + 1

/-- The double nearest to a natural number, ties going to the even
significand (the conversion of a mathematical value to a Number); `none` is
`Infinity`.  A number below 2^53 is its own double; a larger one keeps its 53
leading binary digits, rounded, and overflows when it reaches 2^1024. -/
def roundToDouble (n : Nat) : Option Nat :=
  if n < 9007199254740992 then some n
  else
    let e := excessBits 1100 n
    let q := n / 2 ^ e
    let r := n % 2 ^ e
    let half := 2 ^ (e - 1)
    let q := if half < r || (r == half && q % 2 == 1) then q + 1 else q
    if (q < 9007199254740992 && e ≤ 971) || (q == 9007199254740992 && e ≤ 970) then
      some (q * 2 ^ e)
    else none

/-- The JavaScript `parseInt(text)` with no radix argument: leading white
space is skipped, a sign and a `0x` marker are read, then the longest run of
digits; the result is the double nearest to the integer the digits denote.
`none` is a result that is not a finite number: `NaN` when there is no digit,
`Infinity` or `-Infinity` when the digits are beyond the range of a double.
(For more than 20 decimal digits ECMAScript also allows an implementation to
round from the first 20 digits; the exact value is rounded here.) -/
def parseInt (text : String) : Option Int :=
  let s := text.toList.dropWhile isStrWhiteSpace
  let negative := match s with
    | '-' :: _ => true
    | _ => false
  let s := match s with
    | '-' :: r => r
    | '+' :: r => r
    | _ => s
  let radix : Nat := match s with
    | '0' :: 'x' :: _ => 16
    | '0' :: 'X' :: _ => 16
    | _ => 10
  let s := match s with
    | '0' :: 'x' :: r => r
    | '0' :: 'X' :: r => r
    | _ => s
  let z := s.takeWhile (isRadixDigit radix)
  if z.isEmpty then none
  else
    match roundToDouble (digitsValue radix z) with
    | none => none
    | some v => if negative then some (-(v : Int)) else some (v : Int)

/-! ## The create-listing mutation (donate.jsx:101-125) -/

/-- The call `await response.json()`. -/
def responseJson (response : Response) : Eff Json :=
  match response.body with
  | .parsed value => pure value
  | .invalid message => throw (JSError.jsonError message)

/-- The property read `error.error` on a parsed body: a `TypeError` on `null`,
the field of an object, `undefined` on anything else. -/
def readErrorField (env : Env) : Json → Eff JSVal
  | .null => throw (JSError.typeError env.nullReadMessage)
  | .obj fields => pure ((fields.lookup "error").getD .undefined)
  | _ => pure .undefined

/-- The expression `a || b`. -/
def jsOr (a b : JSVal) : JSVal := if truthy a then a else b

/-- The array `["listings"]`. -/
def listingsGroup : QueryKey := [.val (.str "listings")]

/-- The array `["recentListings"]`. -/
def recentListingsGroup : QueryKey := [.val (.str "recentListings")]

/-- The array `["userStats"]`. -/
def userStatsGroup : QueryKey := [.val (.str "userStats")]

/-- The array `["userProfile"]`. -/
def userProfileGroup : QueryKey := [.val (.str "userProfile")]

/-- The `mutationFn` of `createListingMutation` (donate.jsx:102-113). -/
def createListingMutation.mutationFn (env : Env) (listingData : ListingData) : Eff Json := do
  emit (.postListing listingData)
  match env.createListing listingData with
  | .rejected message => throw (JSError.typeError message)
  | .resolved response =>
    if !response.ok then
      let error ← responseJson response
      let field ← readErrorField env error
      throw (JSError.error (errorMessageOf (jsOr field (.str "Failed to create listing"))))
    responseJson response

/-- The `onSuccess` of `createListingMutation` (donate.jsx:114-121). -/
def createListingMutation.onSuccess : Eff Unit := do
  emit (.invalidateQueries listingsGroup)
  emit (.invalidateQueries recentListingsGroup)
  emit (.invalidateQueries userStatsGroup)
  emit (.alert "Success" "Your food donation has been listed!")

/-- The `onError` of `createListingMutation` (donate.jsx:122-124). -/
def createListingMutation.onError (error : JSError) : Eff Unit :=
  emit (.alert "Error" error.message)

/-- The call `createListingMutation.mutate(listingData)`: the query library
runs `mutationFn` once and then `onSuccess` or `onError`; nothing is thrown
to the caller. -/
def createListingMutation.mutate (env : Env) (listingData : ListingData) : Eff Unit := fun t =>
  match createListingMutation.mutationFn env listingData t with
  | (.ok _, t1) => createListingMutation.onSuccess t1
  | (.error e, t1) => createListingMutation.onError e t1

/-! ## The submission handler (donate.jsx:154-194) -/

/-- The component state read by `handleSubmit`. -/
structure DonateState where
  formData : FormData
  location : Option Coords
  selectedImages : List Asset
  deriving DecidableEq, Repr

/-- The text of the validation alert. -/
def requiredFieldsMessage : String :=
  "Please fill in all required fields (Title, Quantity, Unit, and Pickup Location)"

/-- The call `new Date(text).toISOString()`. -/
def toISOString (env : Env) (text : String) : Eff String :=
  match env.parseDate text with
  | some iso => pure iso
  | none => throw (JSError.rangeError env.invalidTimeMessage)

/-- The function `handleSubmit` of donate.jsx:154-194. -/
def handleSubmit (env : Env) (s : DonateState) : Eff Unit :=
  if s.formData.title == "" || s.formData.quantity == "" || s.formData.unit == "" ||
      s.formData.pickup_location == "" then
    emit (.alert "Error" requiredFieldsMessage)
  else
    tryCatch
      (do
        let imageUrls ←
          if s.selectedImages.length > 0 then do
            emit (.consoleLog "Uploading images...")
            let urls ← uploadImages env s.selectedImages
            emit (.consoleLog "Images uploaded:")
            pure urls
          else pure []
        let expiry ←
          if s.formData.expiry_date != "" then do
            let iso ← toISOString env s.formData.expiry_date
            pure (some iso)
          else pure none
        let listingData : ListingData :=
          { title := s.formData.title
            description := s.formData.description
            category_id := s.formData.category_id
            quantity := parseInt s.formData.quantity
            unit := s.formData.unit
            expiry_date := expiry
            pickup_location := s.formData.pickup_location
            pickup_instructions := s.formData.pickup_instructions
            safety_notes := s.formData.safety_notes
            dietary_info := s.formData.dietary_info
            image_urls := if imageUrls.length > 0 then some imageUrls else none
            pickup_latitude := s.location.map Coords.latitude
            pickup_longitude := s.location.map Coords.longitude }
        emit (.consoleLog "Creating listing with data:")
        createListingMutation.mutate env listingData)
      (fun error => do
        emit (.consoleError "Submit error:" error)
        emit (.alert "Error" ("Failed to create listing: " ++ error.message)))

/-- The create-listing requests recorded in a trace, in order. -/
def postedListings (t : Trace) : List ListingData :=
  t.filterMap fun ev => match ev with | .postListing p => some p | _ => none

/-- The profile requests recorded in a trace, in order. -/
def postedProfiles (t : Trace) : List ProfileData :=
  t.filterMap fun ev => match ev with | .postProfile p => some p | _ => none

/-- The cache groups invalidated in a trace, in order. -/
def invalidated (t : Trace) : List QueryKey :=
  t.filterMap fun ev => match ev with | .invalidateQueries k => some k | _ => none

/-- Whether an action is a network call: an image upload, the create-listing
request or the profile request. -/
def Event.isNetworkCall : Event → Bool
  | .uploadCall _ => true
  | .postListing _ => true
  | .postProfile _ => true
  | _ => false

/-! ## The profile mutation (profile-setup.jsx:28-50) -/

/-- The `mutationFn` of `updateProfileMutation` (profile-setup.jsx:29-40). -/
def updateProfileMutation.mutationFn (env : Env) (profileData : ProfileData) : Eff Json := do
  emit (.postProfile profileData)
  match env.updateProfile profileData with
  | .rejected message => throw (JSError.typeError message)
  | .resolved response =>
    if !response.ok then
      let error ← responseJson response
      let field ← readErrorField env error
      throw (JSError.error (errorMessageOf (jsOr field (.str "Failed to update profile"))))
    responseJson response

/-! ## The listing search of the discover screen (discover.jsx:41-57) -/

/-- The `queryKey` of the listings query (discover.jsx:42):
`['listings', searchQuery, selectedCategory, location]`, where the `location`
state is `null` until coordinates were read. -/
def listingsQueryKey (searchQuery selectedCategory : JSVal) (location : Option Coords) :
    QueryKey :=
  [.val (.str "listings"), .val searchQuery, .val selectedCategory,
    match location with
    | some c => .coords c
    | none => .val .null]

/-- The parameters appended to `params` by the listings `queryFn`
(discover.jsx:44-50), in order; `numberToString` is `Number.prototype.toString`. -/
def listingsQueryParams (numberToString : Rat → String) (searchQuery selectedCategory : JSVal)
    (location : Option Coords) : List (String × String) :=
  (if truthy searchQuery then [("search", jsToString searchQuery)] else []) ++
  (if truthy selectedCategory then [("category", jsToString selectedCategory)] else []) ++
  (match location with
    | some c => [("latitude", numberToString c.latitude), ("longitude", numberToString c.longitude)]
    | none => [])

/-! ## The query cache -/

/-- Modelled from the spec: an entry of the QueryCache of section 4.2 (the
query client library, whose code is not in the repository): the key of a
completed read, the memoized value and the stale mark. -/
structure CacheEntry (α : Type) where
  key : QueryKey
  value : α
  stale : Bool

/-- Modelled from the spec: the QueryCache of section 4.2, a keyed store. -/
abbrev QueryCache (α : Type) : Type := List (CacheEntry α)

/-- Modelled from the spec: a key belongs to a group when the group is a
leading part of the key (section 4.2, "by key-prefix group"). -/
def belongsTo (group key : QueryKey) : Bool := group.isPrefixOf key

/-- Modelled from the spec: `invalidate(group)` of section 4.2 marks every
cached entry whose key belongs to the group as stale. -/
def QueryCache.invalidate {α : Type} (group : QueryKey) (cache : QueryCache α) : QueryCache α :=
  cache.map fun e => if belongsTo group e.key then { e with stale := true } else e

/-! ## Device location (donate.jsx:52-72, discover.jsx:20-28, profile-setup.jsx:52-72) -/

/-- One entry of a reverse-geocode result; a component that is `null` or
missing is `none`. -/
structure Address where
  street : Option String
  city : Option String
  region : Option String
  deriving DecidableEq, Repr

/-- The answers of the device: the status of the permission request, the
position read and the reverse-geocode lookup, each of which may also
reject. -/
structure Device where
  requestPermission : Except JSError String
  currentPosition : Except JSError Coords
  reverseGeocode : Coords → Except JSError (List Address)

/-- The expression `component || ""` on a string or `null`. -/
def orEmpty (component : Option String) : String := component.getD ""

/-- The characters left after white space is removed at the start. -/
def trimStart (cs : List Char) : List Char := cs.dropWhile isStrWhiteSpace

/-- The characters left after white space is removed at the end. -/
def trimEnd (cs : List Char) : List Char := (cs.reverse.dropWhile isStrWhiteSpace).reverse

/-- The JavaScript `text.trim()`. -/
def jsTrim (text : String) : String := String.mk (trimEnd (trimStart text.toList))

/-- The address line of donate.jsx:66 and profile-setup.jsx:66:
the template `street city, region` with `|| ""` on each component, trimmed. -/
def addressLine (addr : Address) : String :=
  jsTrim (orEmpty addr.street ++ " " ++ orEmpty addr.city ++ ", " ++ orEmpty addr.region)

/-- The call `await Location.requestForegroundPermissionsAsync()`, giving the
`status`. -/
def requestForegroundPermissions (dev : Device) : Eff String := fun t =>
  (dev.requestPermission, t ++ [.requestPermission])

/-- The call `await Location.getCurrentPositionAsync({})`, giving the
`coords` of the position. -/
def getCurrentPosition (dev : Device) : Eff Coords := fun t =>
  (dev.currentPosition, t ++ [.getCurrentPosition])

/-- The call `await Location.reverseGeocodeAsync(coords)`. -/
def reverseGeocode (dev : Device) (coords : Coords) : Eff (List Address) := fun t =>
  (dev.reverseGeocode coords, t ++ [.reverseGeocode coords])

/-- The mount effect of the discover screen (discover.jsx:20-28). -/
def DiscoverScreen.locationEffect (dev : Device) : Eff Unit := do
  let status ← requestForegroundPermissions dev
  if status == "granted" then
    let coords ← getCurrentPosition dev
    emit (.setLocation coords)

/-- The mount effect of the donate screen (donate.jsx:52-72); `formData` is the
form state of the render that created the effect. -/
def DonateScreen.locationEffect (dev : Device) (formData : FormData) : Eff Unit := do
  let status ← requestForegroundPermissions dev
  if status == "granted" then
    let coords ← getCurrentPosition dev
    emit (.setLocation coords)
    if formData.pickup_location == "" then
      let address ← reverseGeocode dev coords
      match address.head? with
      | some addr => emit (.setPickupLocation (addressLine addr))
      | none => pure ()

/-- The function `getUserLocation` of profile-setup.jsx:52-72. -/
def getUserLocation (dev : Device) : Eff Unit :=
  tryCatch
    (do
      let status ← requestForegroundPermissions dev
      if status != "granted" then
        emit (.alert "Permission denied" "Location permission is needed to set your address")
      else
        let coords ← getCurrentPosition dev
        emit (.setLocation coords)
        let address ← reverseGeocode dev coords
        match address.head? with
        | some addr => emit (.setAddress (addressLine addr))
        | none => pure ())
    (fun _ => emit (.alert "Error" "Could not get your location"))

/-- The `location` state after the given actions, starting from `location`:
each `setLocation` replaces it. -/
def storedLocation (location : Option Coords) (evs : List Event) : Option Coords :=
  evs.foldl (fun loc ev => match ev with | .setLocation c => some c | _ => loc) location

/-- The `pickup_location` of the donate form after the given actions: the
functional update of donate.jsx:63-67 replaces it. -/
def pickupLocationAfter (text : String) (evs : List Event) : String :=
  evs.foldl (fun cur ev => match ev with | .setPickupLocation a => a | _ => cur) text

/-- The `address` of the profile form after the given actions: the functional
update of profile-setup.jsx:67 replaces it. -/
def addressAfter (text : String) (evs : List Event) : String :=
  evs.foldl (fun cur ev => match ev with | .setAddress a => a | _ => cur) text

/-- The position reads recorded in a trace. -/
def positionReads (t : Trace) : Nat :=
  (t.filter fun ev => match ev with | .getCurrentPosition => true | _ => false).length

/-! ## The read requests (discover.jsx:41-57, donate.jsx:85-98, profile.jsx:15-23) -/

/-- The answers of the server to the read requests: the listing search, by
its query parameters, and the profile read. -/
structure Backend where
  getListings : List (String × String) → FetchOutcome
  getProfile : FetchOutcome

/-- The `queryFn` of the listings query of the discover screen
(discover.jsx:43-55). -/
def DiscoverScreen.listingsQueryFn (api : Backend) (numberToString : Rat → String)
    (searchQuery selectedCategory : JSVal) (location : Option Coords) : Eff Json := do
  let params := listingsQueryParams numberToString searchQuery selectedCategory location
  emit (.getListings params)
  match api.getListings params with
  | .rejected message => throw (JSError.typeError message)
  | .resolved response =>
    if !response.ok then throw (JSError.error "Failed to fetch listings")
    responseJson response

/-- The `queryFn` registered under `["userProfile"]` by the donate screen
(donate.jsx:87-96). -/
def DonateScreen.userProfileQueryFn (api : Backend) : Eff Json := do
  emit .getProfile
  match api.getProfile with
  | .rejected message => throw (JSError.typeError message)
  | .resolved response =>
    if !response.ok then
      if response.status == 404 then pure Json.null
      else throw (JSError.error "Failed to fetch profile")
    else responseJson response

/-- The `queryFn` registered under `["userProfile"]` by the profile screen
(profile.jsx:17-21). -/
def ProfileScreen.userProfileQueryFn (api : Backend) : Eff Json := do
  emit .getProfile
  match api.getProfile with
  | .rejected message => throw (JSError.typeError message)
  | .resolved response =>
    if !response.ok then throw (JSError.error "Failed to fetch profile")
    responseJson response

/-! ## What the donate screen renders (donate.jsx:196-341, 825-849) -/

/-- The four screens `DonateScreen` can return. -/
inductive DonateView
  | signIn
  | loadingProfile
  | completeProfile
  | donationForm
  deriving DecidableEq, Repr

/-- JavaScript truthiness of a parsed JSON value. -/
def Json.truthy : Json → Bool
  | .null => false
  | .bool b => b
  | .num n => n != 0
  | .str s => s != ""
  | .arr _ => true
  | .obj _ => true

/-- JavaScript truthiness of the `data` of a query: `undefined` (`none`) until
the fetcher has resolved. -/
def dataTruthy : Option Json → Bool
  | none => false
  | some v => v.truthy

/-- The render guards of donate.jsx:196, 249 and 288, in order. -/
def DonateScreen.view (auth : JSVal) (profileLoading : Bool) (userProfile : Option Json) :
    DonateView :=
  if !truthy auth then .signIn
  else if profileLoading then .loadingProfile
  else if !dataTruthy userProfile then .completeProfile
  else .donationForm

/-- A press where the submit button is drawn: the button belongs to the
donation form only (donate.jsx:825), it is disabled while
`createListingMutation.isLoading || uploadLoading`, and its `onPress` is
`handleSubmit`. -/
def DonateScreen.pressSubmit (env : Env) (s : DonateState) (auth : JSVal) (profileLoading : Bool)
    (userProfile : Option Json) (isLoading uploadLoading : Bool) : Eff Unit :=
  match DonateScreen.view auth profileLoading userProfile with
  | .donationForm => if isLoading || uploadLoading then pure () else handleSubmit env s
  | _ => pure ()

/-! ## The query cache with reads in flight -/

/-- Modelled from the spec: the QueryCache of section 4.2 (the query client
library, whose code is not in the repository) together with the keys whose
read is in flight. -/
structure CacheState (α : Type) where
  entries : QueryCache α
  inFlight : List QueryKey

/-- Modelled from the spec: an operation on the cache of section 4.2: the
start of a `read`, the completion of the fetch of a key, or `invalidate`. -/
inductive CacheOp (α : Type)
  | read (key : QueryKey)
  | complete (key : QueryKey) (value : α)
  | invalidate (group : QueryKey)

/-- Modelled from the spec: one operation of section 4.2, with the key it
issues a fetch for, if any.  A `read` is served from a fresh entry or joins
the in-flight read of its key, and otherwise invokes the fetcher; a completed
fetch memoizes its value; `invalidate` marks entries stale and does not
cancel reads in flight. -/
def CacheState.step {α : Type} (st : CacheState α) : CacheOp α → Option QueryKey × CacheState α
  | .read key =>
    if (st.entries.any fun e => e.key == key && !e.stale) || st.inFlight.contains key then
      (none, st)
    else (some key, { st with inFlight := key :: st.inFlight })
  | .complete key value =>
    (none,
      { entries := { key := key, value := value, stale := false } ::
          st.entries.filter (fun e => e.key != key)
        inFlight := st.inFlight.filter (fun k => k != key) })
  | .invalidate group => (none, { st with entries := st.entries.invalidate group })

/-- Modelled from the spec: the keys a sequence of cache operations issues a
fetch for, in order. -/
def CacheState.fetches {α : Type} : CacheState α → List (CacheOp α) → List QueryKey
  | _, [] => []
  | st, op :: ops =>
    match st.step op with
    | (some key, st1) => key :: CacheState.fetches st1 ops
    | (none, st1) => CacheState.fetches st1 ops

/-- Whether a cache operation is the completion of the fetch of `key`. -/
def CacheOp.completes {α : Type} (key : QueryKey) : CacheOp α → Bool
  | .complete k _ => k == key
  | _ => false

/-! ## Vocabulary of the statements -/

/-- The actions of one run of the upload loop over `images` when `k` upload
calls were made before: per image the upload call, followed by the
`console.error` entry when that upload failed. -/
def loopEvents (env : Env) (k : Nat) (images : List Asset) : List Event :=
  (images.enumFrom k).flatMap fun p =>
    .uploadCall p.2 ::
      match (env.upload p.1 p.2).failure with
      | some e => [.consoleError "Image upload failed:" e]
      | none => []

/-- The validation test of `handleSubmit`: one of the four required texts is
empty. -/
def missingRequired (f : FormData) : Bool :=
  f.title == "" || f.quantity == "" || f.unit == "" || f.pickup_location == ""

/-- The object literal `listingData` of donate.jsx:177-186, as a function of
the state, the uploaded urls and the converted expiry date. -/
def listingPayload (s : DonateState) (imageUrls : List JSVal) (expiry : Option String) :
    ListingData :=
  { title := s.formData.title
    description := s.formData.description
    category_id := s.formData.category_id
    quantity := parseInt s.formData.quantity
    unit := s.formData.unit
    expiry_date := expiry
    pickup_location := s.formData.pickup_location
    pickup_instructions := s.formData.pickup_instructions
    safety_notes := s.formData.safety_notes
    dietary_info := s.formData.dietary_info
    image_urls := if imageUrls.length > 0 then some imageUrls else none
    pickup_latitude := s.location.map Coords.latitude
    pickup_longitude := s.location.map Coords.longitude }

/-- The urls `handleSubmit` holds in `imageUrls` after its upload step, when it
is started at trace `t`. -/
def uploadStageUrls (env : Env) (s : DonateState) (t : Trace) : List JSVal :=
  (outcomesFrom env (uploadCount t) s.selectedImages).filterMap UploadOutcome.successUrl

/-- The actions of the upload step of `handleSubmit` started at trace `t`:
none when no image is selected. -/
def uploadStageEvents (env : Env) (s : DonateState) (t : Trace) : List Event :=
  if s.selectedImages.length > 0 then
    .consoleLog "Uploading images..." :: loopEvents env (uploadCount t) s.selectedImages ++
      [.consoleLog "Images uploaded:"]
  else []

/-- The actions that follow the create request: those of `onSuccess` when the
mutation function resolved, those of `onError` when it rejected. -/
def settledEvents : Except JSError Json → List Event
  | .ok _ =>
    [.invalidateQueries listingsGroup, .invalidateQueries recentListingsGroup,
      .invalidateQueries userStatsGroup, .alert "Success" "Your food donation has been listed!"]
  | .error e => [.alert "Error" e.message]

/-- The value of `body.error` for a parsed body other than `null`. -/
def errorField : Json → JSVal
  | .obj fields => (fields.lookup "error").getD .undefined
  | _ => .undefined

/-- How a mutation function settles on a given answer of `fetch`, with its
generic message. -/
def settle (env : Env) (generic : String) : FetchOutcome → Except JSError Json
  | .rejected message => .error (.typeError message)
  | .resolved r =>
    match r.body with
    | .invalid m => .error (.jsonError m)
    | .parsed j =>
      if r.ok then .ok j
      else if j = .null then .error (.typeError env.nullReadMessage)
      else .error (.error (errorMessageOf (jsOr (errorField j) (.str generic))))

/-! ## Sample inputs -/

/-- A form with every required field filled in and quantity text `"0"`. -/
def zeroQuantityForm : FormData :=
  { title := "Bread", description := "", category_id := .str "", quantity := "0",
    unit := "kg", expiry_date := "", pickup_location := "12 Main St",
    pickup_instructions := "", safety_notes := "", dietary_info := "", image_urls := [] }

/-- A form with every required field filled in and five loaves. -/
def breadForm : FormData := { zeroQuantityForm with quantity := "5", unit := "loaves" }

/-- Three selected images. -/
def threeImages : List Asset := [⟨"file:///1.jpg"⟩, ⟨"file:///2.jpg"⟩, ⟨"file:///3.jpg"⟩]

/-- A server that stores every upload but the second one, accepts every
listing and every profile, and a date parser that knows one date. -/
def secondUploadFails : Env :=
  { upload := fun i a =>
      if i == 1 then .resolved .undefined (.str "Upload failed")
      else .resolved (.str ("https://cdn.example/" ++ a.uri)) .undefined
    parseDate := fun text => if text == "2030-01-31" then some "2030-01-31T00:00:00.000Z" else none
    invalidTimeMessage := "Invalid time value"
    nullReadMessage := "Cannot read property of null"
    createListing := fun _ => .resolved ⟨201, .parsed (.obj [("id", .num 7)])⟩
    updateProfile := fun _ => .resolved ⟨200, .parsed (.obj [("id", .num 1)])⟩ }

/-- An environment in which every upload throws. -/
def uploadsThrow : Env :=
  { secondUploadFails with upload := fun _ _ => .threw (.typeError "Network request failed") }

/-- An environment whose server answers every request with a 502 page that
is not JSON. -/
def gatewayDown : Env :=
  { secondUploadFails with
    createListing := fun _ => .resolved ⟨502, .invalid "JSON Parse error: Unexpected token: <"⟩
    updateProfile := fun _ => .resolved ⟨502, .invalid "JSON Parse error: Unexpected token: <"⟩ }

/-- An environment whose server rejects every request with a message. -/
def serverRejects : Env :=
  { secondUploadFails with
    createListing := fun _ => .resolved ⟨400, .parsed (.obj [("error", .str "Title too long")])⟩
    updateProfile := fun _ => .resolved ⟨400, .parsed (.obj [("error", .str "Phone invalid")])⟩ }

/-- The actions a computation performs when it is started at trace `t`. -/
def performedBy {α : Type} (m : Eff α) (t : Trace) : List Event :=
  (m t).2.drop t.length

/-- The message a mutation fails with on a non-2xx answer whose parsed body
is `body`: the `error` property of the body when it is set, else the generic
message. -/
def serverMessageOr (body : Json) (generic : String) : String :=
  if truthy (errorField body) then jsToString (errorField body) else generic

/-- The state of the donate screen with the zero-quantity form, no location
and no image. -/
def zeroQuantityState : DonateState :=
  { formData := zeroQuantityForm, location := none, selectedImages := [] }

/-- The state of the donate screen with the bread form, a location and three
images. -/
def breadState : DonateState :=
  { formData := breadForm, location := some ⟨52, 13⟩, selectedImages := threeImages }

/-- The bread state with an expiry text that is not a date. -/
def badExpiryState : DonateState :=
  { breadState with formData := { breadForm with expiry_date := "next week" } }

/-- The bread state with the unit left empty. -/
def noUnitState : DonateState :=
  { breadState with formData := { breadForm with unit := "" } }

/-- A device on which the user refuses the location permission. -/
def permissionDenied : Device :=
  { requestPermission := .ok "denied"
    currentPosition := .ok ⟨52, 13⟩
    reverseGeocode := fun _ => .ok [⟨some "1 Main St", some "Springfield", some "IL"⟩] }

/-- A device that grants the permission and reads a position, while the
reverse-geocode lookup rejects. -/
def geocoderDown : Device :=
  { requestPermission := .ok "granted"
    currentPosition := .ok ⟨52, 13⟩
    reverseGeocode := fun _ => .error (.error "Geocoder unavailable") }

/-- The initial form state of the donate screen (donate.jsx:35-47). -/
def emptyForm : FormData :=
  { title := "", description := "", category_id := .str "", quantity := "", unit := "",
    expiry_date := "", pickup_location := "", pickup_instructions := "", safety_notes := "",
    dietary_info := "", image_urls := [] }

/-- A server that answers every read with an empty JSON array. -/
def emptyBackend : Backend :=
  { getListings := fun _ => .resolved ⟨200, .parsed (.arr [])⟩
    getProfile := .resolved ⟨200, .parsed (.arr [])⟩ }

/-- A server on which the signed-in user has no profile yet: the profile read
is answered with status 404. -/
def noProfileBackend : Backend :=
  { getListings := fun _ => .resolved ⟨200, .parsed (.arr [])⟩
    getProfile := .resolved ⟨404, .parsed (.obj [("error", .str "Profile not found")])⟩ }

/-- The trace of a submission of the bread form that is in progress: its first
image is being uploaded. -/
def submissionInProgress : Trace :=
  [.consoleLog "Uploading images...", .uploadCall ⟨"file:///1.jpg"⟩]

/-! ## The location line of a listing card (discover.jsx:318-324) -/

/-- A listing of a search result, as far as its location line reads it:
`distance_km` is `none` when the property is `null` or missing, and a number
otherwise (a finite double is a rational). -/
structure SearchListing where
  pickup_location : String
  distance_km : Option Rat
  deriving DecidableEq, Repr

/-- The text React draws for the children of the location line
(discover.jsx:322-323): `{listing.pickup_location}` followed by
`{listing.distance_km && ...}`.  On a missing distance the `&&` gives
`null` or `undefined`, which draws nothing; on the number 0 it gives 0, which
is drawn as the text "0"; on any other number it gives the suffix, in which
`toFixed1` is `Number.prototype.toFixed(1)`. -/
def locationLine (toFixed1 : Rat → String) (listing : SearchListing) : String :=
  listing.pickup_location ++
    match listing.distance_km with
    | none => ""
    | some d => if d = 0 then "0" else " • " ++ toFixed1 d ++ "km away"

/-! ## The donate form under its setters -/

/-- The functional update `setFormData(prev => ({ ...prev, pickup_location }))`
(donate.jsx:63-67 for the auto-fill, 667-670 for the text input): the one
form setter among the actions. -/
def FormData.apply (f : FormData) : Event → FormData
  | .setPickupLocation text => { f with pickup_location := text }
  | _ => f

/-- The donate form after the given actions. -/
def formAfter (f : FormData) (evs : List Event) : FormData := evs.foldl FormData.apply f

/-- Whether an action sets component state. -/
def Event.isStateUpdate : Event → Bool
  | .setLocation _ => true
  | .setPickupLocation _ => true
  | .setAddress _ => true
  | _ => false

/-! ## Profile setup (profile-setup.jsx:17-92) -/

/-- The `formData` state of profile setup (profile-setup.jsx:17-24). -/
structure ProfileForm where
  user_type : String
  full_name : String
  phone : String
  address : String
  organization_name : String
  organization_type : String
  deriving DecidableEq, Repr

/-- The component state read by the `handleSubmit` of profile setup. -/
structure ProfileSetupState where
  formData : ProfileForm
  location : Option Coords
  deriving DecidableEq, Repr

/-- The `onSuccess` of `updateProfileMutation` (profile-setup.jsx:41-46). -/
def updateProfileMutation.onSuccess : Eff Unit := do
  emit (.invalidateQueries userProfileGroup)
  emit (.alert "Success" "Profile updated successfully!")

/-- The `onError` of `updateProfileMutation` (profile-setup.jsx:47-49). -/
def updateProfileMutation.onError (error : JSError) : Eff Unit :=
  emit (.alert "Error" error.message)

/-- The call `updateProfileMutation.mutate(profileData)`: the query library
runs `mutationFn` once and then `onSuccess` or `onError`. -/
def updateProfileMutation.mutate (env : Env) (profileData : ProfileData) : Eff Unit := fun t =>
  match updateProfileMutation.mutationFn env profileData t with
  | (.ok _, t1) => updateProfileMutation.onSuccess t1
  | (.error e, t1) => updateProfileMutation.onError e t1

/-- The function `handleSubmit` of profile-setup.jsx:74-92. -/
def ProfileSetupScreen.handleSubmit (env : Env) (s : ProfileSetupState) : Eff Unit :=
  if s.formData.user_type == "" then
    emit (.alert "Error" "Please select whether you want to donate or receive food")
  else if s.formData.full_name == "" then
    emit (.alert "Error" "Please enter your full name")
  else
    updateProfileMutation.mutate env
      { user_type := s.formData.user_type
        full_name := s.formData.full_name
        phone := s.formData.phone
        address := s.formData.address
        organization_name := s.formData.organization_name
        organization_type := s.formData.organization_type
        latitude := s.location.map Coords.latitude
        longitude := s.location.map Coords.longitude }

/-- The object literal `profileData` of profile-setup.jsx:85-89. -/
def profilePayload (s : ProfileSetupState) : ProfileData :=
  { user_type := s.formData.user_type
    full_name := s.formData.full_name
    phone := s.formData.phone
    address := s.formData.address
    organization_name := s.formData.organization_name
    organization_type := s.formData.organization_type
    latitude := s.location.map Coords.latitude
    longitude := s.location.map Coords.longitude }

/-- The actions that follow the profile request: those of `onSuccess` when
the mutation function resolved, those of `onError` when it rejected. -/
def profileSettledEvents : Except JSError Json → List Event
  | .ok _ => [.invalidateQueries userProfileGroup, .alert "Success" "Profile updated successfully!"]
  | .error e => [.alert "Error" e.message]

/-- The alerts raised in a trace, in order. -/
def alerts (t : Trace) : List (String × String) :=
  t.filterMap fun ev => match ev with | .alert title message => some (title, message) | _ => none

/-! ## More sample inputs -/

/-- The bread state with the title left empty. -/
def noTitleState : DonateState :=
  { breadState with formData := { breadForm with title := "" } }

/-- The bread state with an expiry date the date parser knows. -/
def datedState : DonateState :=
  { breadState with formData := { breadForm with expiry_date := "2030-01-31" } }

/-- A device that grants the permission, reads a position and finds its
address. -/
def geocoderUp : Device :=
  { requestPermission := .ok "granted"
    currentPosition := .ok ⟨52, 13⟩
    reverseGeocode := fun _ => .ok [⟨some "1 Main St", some "Springfield", some "IL"⟩] }

/-- A filled-in profile form of a donor. -/
def donorProfile : ProfileSetupState :=
  { formData :=
      { user_type := "donor", full_name := "Ada Baker", phone := "", address := "",
        organization_name := "", organization_type := "" }
    location := some ⟨52, 13⟩ }

/-! ## The discover screen state (discover.jsx:14-16, 151, 164, 185) -/

/-- The search state of the discover screen: the text and the category are
strings from `useState('')` on, the location is `null` until it is read. -/
structure DiscoverState where
  searchQuery : String
  selectedCategory : String
  location : Option Coords
  deriving DecidableEq, Repr

/-- The state of the first render: no text, no category, no location, the
"show all" search. -/
def DiscoverState.initial : DiscoverState :=
  { searchQuery := "", selectedCategory := "", location := none }

/-- What the user and the location effect do to the search state. -/
inductive DiscoverAction
  | changeText (text : String)
  | pressAll
  | pressCategory (name : String)
  | setLocation (coords : Coords)
  deriving DecidableEq, Repr

/-- The setters of the discover screen: `onChangeText={setSearchQuery}`
(line 151), `setSelectedCategory('')` of the "All" chip (line 164),
`setSelectedCategory(category.name)` (line 185) and `setLocation` (line 25). -/
def DiscoverState.apply (s : DiscoverState) : DiscoverAction → DiscoverState
  | .changeText text => { s with searchQuery := text }
  | .pressAll => { s with selectedCategory := "" }
  | .pressCategory name => { s with selectedCategory := name }
  | .setLocation coords => { s with location := some coords }

/-- The query key the discover screen forms in a given state. -/
def DiscoverState.queryKey (s : DiscoverState) : QueryKey :=
  listingsQueryKey (.str s.searchQuery) (.str s.selectedCategory) s.location

/-- The request parameters the discover screen sends in a given state. -/
def DiscoverState.queryParams (numberToString : Rat → String) (s : DiscoverState) :
    List (String × String) :=
  listingsQueryParams numberToString (.str s.searchQuery) (.str s.selectedCategory) s.location

/-- Modelled from the spec: the cache of section 4.2 after a sequence of
operations. -/
def CacheState.after {α : Type} (st : CacheState α) (ops : List (CacheOp α)) : CacheState α :=
  ops.foldl (fun cur op => (cur.step op).2) st

/-- A server that stores the listing and answers 201 with an empty body, on
which `response.json()` rejects. -/
def createdWithoutBody : Env :=
  { secondUploadFails with
    createListing := fun _ => .resolved ⟨201, .invalid "JSON Parse error: Unexpected end of input"⟩ }

/-- A search state with a text, a category and a location. -/
def breadSearch : DiscoverState :=
  { searchQuery := "bread", selectedCategory := "Bakery", location := some ⟨52, 13⟩ }

/-! # Theorems -/

/-! ## Traces -/

theorem uploadCount_call (t : Trace) (a : Asset) :
    uploadCount (t ++ [.uploadCall a]) = uploadCount t + 1 := by
  simp [uploadCount]

theorem uploadCount_call_error (t : Trace) (a : Asset) (l : String) (e : JSError) :
    uploadCount (t ++ [.uploadCall a, .consoleError l e]) = uploadCount t + 1 := by
  simp [uploadCount]

theorem uploadCalls_append (t u : Trace) : uploadCalls (t ++ u) = uploadCalls t ++ uploadCalls u := by
  simp [uploadCalls]

theorem consoleErrors_append (t u : Trace) :
    consoleErrors (t ++ u) = consoleErrors t ++ consoleErrors u := by
  simp [consoleErrors]

theorem postedListings_append (t u : Trace) :
    postedListings (t ++ u) = postedListings t ++ postedListings u := by
  simp [postedListings]

theorem invalidated_append (t u : Trace) : invalidated (t ++ u) = invalidated t ++ invalidated u := by
  simp [invalidated]

/-! ## The upload loop -/

/-- One turn of the loop: a successful upload appends its url, a failed one
only leaves a `console.error` entry; either way the loop goes on. -/
theorem uploadImagesLoop_cons (env : Env) (image : Asset) (rest : List Asset) (acc : List JSVal)
    (t : Trace) :
    uploadImagesLoop env (image :: rest) acc t =
      match (env.upload (uploadCount t) image).failure with
      | none =>
        uploadImagesLoop env rest (acc ++ ((env.upload (uploadCount t) image).successUrl).toList)
          (t ++ [.uploadCall image])
      | some e =>
        uploadImagesLoop env rest acc
          (t ++ [.uploadCall image, .consoleError "Image upload failed:" e]) := by
  simp only [uploadImagesLoop, bind, Eff.bind, tryCatch, tryCatchThe, MonadExcept.tryCatch,
    Eff.tryCatch, upload, throw, throwThe, MonadExcept.throw, MonadExceptOf.throw, Eff.throw,
    pure, Eff.pure, emit]
  cases h : env.upload (uploadCount t) image with
  | threw e => simp [UploadOutcome.failure]
  | resolved url error =>
    cases hc : truthy error <;>
      simp [UploadOutcome.failure, UploadOutcome.successUrl, hc, Eff.pure, Eff.throw, Eff.bind]

/-- The loop in closed form: it always returns, with the urls of the
successful uploads appended to the accumulator, and performs `loopEvents`. -/
theorem uploadImagesLoop_eq (env : Env) (images : List Asset) :
    ∀ (acc : List JSVal) (t : Trace),
      uploadImagesLoop env images acc t =
        (.ok (acc ++ (outcomesFrom env (uploadCount t) images).filterMap UploadOutcome.successUrl),
          t ++ loopEvents env (uploadCount t) images) := by
  induction images with
  | nil => intro acc t; simp [uploadImagesLoop, outcomesFrom, loopEvents, pure, Eff.pure]
  | cons image rest ih =>
    intro acc t
    rw [uploadImagesLoop_cons]
    cases h : env.upload (uploadCount t) image with
    | threw e =>
      simp [UploadOutcome.failure, ih, uploadCount_call_error, outcomesFrom, loopEvents,
        List.enumFrom, h, UploadOutcome.successUrl]
    | resolved url error =>
      cases hc : truthy error <;>
        simp [UploadOutcome.failure, ih, uploadCount_call, uploadCount_call_error, outcomesFrom,
          loopEvents, List.enumFrom, h, UploadOutcome.successUrl, hc]

/-- The function `uploadImages` in closed form. -/
theorem uploadImages_eq (env : Env) (images : List Asset) (t : Trace) :
    uploadImages env images t =
      (.ok ((outcomesFrom env (uploadCount t) images).filterMap UploadOutcome.successUrl),
        t ++ loopEvents env (uploadCount t) images) := by
  simp [uploadImages, uploadImagesLoop_eq]

theorem uploadCalls_loopEvents (env : Env) (images : List Asset) :
    ∀ k : Nat, uploadCalls (loopEvents env k images) = images := by
  induction images with
  | nil => intro k; simp [loopEvents, uploadCalls]
  | cons image rest ih =>
    intro k
    have h := ih (k + 1)
    simp only [loopEvents, uploadCalls] at h ⊢
    cases hf : (env.upload k image).failure <;>
      simp [List.enumFrom, hf, h]

theorem consoleErrors_loopEvents (env : Env) (images : List Asset) :
    ∀ k : Nat, consoleErrors (loopEvents env k images) =
      (outcomesFrom env k images).filterMap UploadOutcome.failure := by
  induction images with
  | nil => intro k; simp [loopEvents, consoleErrors, outcomesFrom]
  | cons image rest ih =>
    intro k
    have h := ih (k + 1)
    simp only [loopEvents, consoleErrors, outcomesFrom] at h ⊢
    cases hf : (env.upload k image).failure <;>
      simp [List.enumFrom, hf, h]

theorem postedListings_loopEvents (env : Env) (images : List Asset) :
    ∀ k : Nat, postedListings (loopEvents env k images) = [] := by
  induction images with
  | nil => intro k; simp [loopEvents, postedListings]
  | cons image rest ih =>
    intro k
    have h := ih (k + 1)
    simp only [loopEvents, postedListings] at h ⊢
    cases hf : (env.upload k image).failure <;>
      simp [List.enumFrom, hf, h]

theorem outcomesFrom_length (env : Env) (k : Nat) (images : List Asset) :
    (outcomesFrom env k images).length = images.length := by
  simp [outcomesFrom]

/-- Every outcome is either a success, with a url and no logged error, or a
failure, with a logged error and no url. -/
theorem successUrl_failure_split (outcomes : List UploadOutcome) :
    (outcomes.filterMap UploadOutcome.successUrl).length +
      (outcomes.filterMap UploadOutcome.failure).length = outcomes.length := by
  induction outcomes with
  | nil => simp
  | cons o rest ih =>
    cases o with
    | threw e => simp [UploadOutcome.successUrl, UploadOutcome.failure, List.filterMap_cons]; omega
    | resolved url error =>
      cases hc : truthy error <;>
        simp [UploadOutcome.successUrl, UploadOutcome.failure, List.filterMap_cons, hc] <;> omega

theorem successUrl_length_eq_filter (outcomes : List UploadOutcome) :
    (outcomes.filterMap UploadOutcome.successUrl).length =
      (outcomes.filter UploadOutcome.succeeded).length := by
  induction outcomes with
  | nil => simp
  | cons o rest ih =>
    cases o with
    | threw e => simp [UploadOutcome.successUrl, UploadOutcome.succeeded, List.filterMap_cons, ih]
    | resolved url error =>
      cases hc : truthy error <;>
        simp [UploadOutcome.successUrl, UploadOutcome.succeeded, List.filterMap_cons, hc, ih]

/-- C1: for every list of selected images and every behaviour of the upload
hook, `uploadImages` returns exactly the urls of the uploads that succeeded
(the call did not throw and its `error` is not set), in the order of the
selected images; a failed upload contributes nothing to the result. -/
theorem uploadImages_returns_successful_urls (env : Env) (selectedImages : List Asset)
    (t : Trace) :
    (uploadImages env selectedImages t).1 =
        .ok ((outcomesFrom env (uploadCount t) selectedImages).filterMap
          UploadOutcome.successUrl) ∧
      (∀ e, UploadOutcome.successUrl (.threw e) = none) ∧
      (∀ url, UploadOutcome.successUrl (.resolved url .undefined) = some url) ∧
      (∀ url message, UploadOutcome.successUrl (.resolved url (.str message)) =
        if message = "" then some url else none) := by
  rw [uploadImages_eq]
  refine ⟨rfl, fun _ => rfl, fun _ => rfl, fun url message => ?_⟩
  by_cases h : message = "" <;> simp [UploadOutcome.successUrl, truthy, h]

/-- With three images of which only the second fails, the result is the url
of the first followed by the url of the third. -/
theorem uploadImages_second_of_three_fails :
    (uploadImages secondUploadFails threeImages []).1 =
      .ok [.str "https://cdn.example/file:///1.jpg", .str "https://cdn.example/file:///3.jpg"] := by
  rfl

/-- C2: for every list of selected images and every behaviour of the upload
hook, `uploadImages` calls the hook exactly once per image, in input order
(no call is skipped after a throw or an error answer), and it returns
normally. -/
theorem uploadImages_calls_upload_once_per_image (env : Env) (selectedImages : List Asset)
    (t : Trace) :
    uploadCalls (uploadImages env selectedImages t).2 = uploadCalls t ++ selectedImages ∧
      ∃ urls, (uploadImages env selectedImages t).1 = .ok urls := by
  rw [uploadImages_eq]
  exact ⟨by simp [uploadCalls_append, uploadCalls_loopEvents], _, rfl⟩

/-- C3 (as stated, refuted): with one selected image whose upload throws,
`uploadImages` returns no result at all, not one result carrying the error. -/
theorem uploadImages_fewer_results_than_images :
    (uploadImages uploadsThrow [⟨"file:///1.jpg"⟩] []).1 = .ok [] ∧
      ([] : List JSVal).length ≠ ([⟨"file:///1.jpg"⟩] : List Asset).length := by
  exact ⟨rfl, by decide⟩

/-- C3 (amended): for every list of n selected images `uploadImages` returns
one bare url per successful upload, in input order, and writes one
`console.error` entry per failed upload; the two counts add up to n, so the
result has at most n entries, and exactly n when no upload failed. -/
theorem uploadImages_one_url_per_success (env : Env) (selectedImages : List Asset) (t : Trace) :
    ∃ urls,
      (uploadImages env selectedImages t).1 = .ok urls ∧
      urls = (outcomesFrom env (uploadCount t) selectedImages).filterMap
        UploadOutcome.successUrl ∧
      urls.length =
        ((outcomesFrom env (uploadCount t) selectedImages).filter
          UploadOutcome.succeeded).length ∧
      consoleErrors (uploadImages env selectedImages t).2 =
        consoleErrors t ++
          (outcomesFrom env (uploadCount t) selectedImages).filterMap UploadOutcome.failure ∧
      urls.length +
          ((outcomesFrom env (uploadCount t) selectedImages).filterMap
            UploadOutcome.failure).length = selectedImages.length ∧
      urls.length ≤ selectedImages.length := by
  rw [uploadImages_eq]
  have hsplit := successUrl_failure_split (outcomesFrom env (uploadCount t) selectedImages)
  rw [outcomesFrom_length] at hsplit
  refine ⟨_, rfl, rfl, successUrl_length_eq_filter _, ?_, hsplit, by omega⟩
  simp [consoleErrors_append, consoleErrors_loopEvents]

/-! ## The mutations and the submission handler -/

/-- The create-listing mutation function sends one request and settles as
`settle` says. -/
theorem createListing_mutationFn_eq (env : Env) (data : ListingData) (t : Trace) :
    createListingMutation.mutationFn env data t =
      (settle env "Failed to create listing" (env.createListing data), t ++ [.postListing data]) := by
  simp only [createListingMutation.mutationFn, bind, Eff.bind, emit]
  cases h : env.createListing data with
  | rejected e => simp [throw, throwThe, MonadExceptOf.throw, Eff.throw, settle]
  | resolved r =>
    cases hok : r.ok <;> cases hb : r.body with
    | invalid m =>
      simp [responseJson, hb, hok, throw, throwThe, MonadExceptOf.throw, Eff.throw, Eff.bind, pure,
        Eff.pure, settle]
    | parsed j =>
      cases j <;>
        simp [responseJson, hb, hok, throw, throwThe, MonadExceptOf.throw, Eff.throw, Eff.bind,
          pure, Eff.pure, readErrorField, settle, errorField]

/-- The profile mutation function sends one request and settles as `settle`
says. -/
theorem updateProfile_mutationFn_eq (env : Env) (data : ProfileData) (t : Trace) :
    updateProfileMutation.mutationFn env data t =
      (settle env "Failed to update profile" (env.updateProfile data), t ++ [.postProfile data]) := by
  simp only [updateProfileMutation.mutationFn, bind, Eff.bind, emit]
  cases h : env.updateProfile data with
  | rejected e => simp [throw, throwThe, MonadExceptOf.throw, Eff.throw, settle]
  | resolved r =>
    cases hok : r.ok <;> cases hb : r.body with
    | invalid m =>
      simp [responseJson, hb, hok, throw, throwThe, MonadExceptOf.throw, Eff.throw, Eff.bind, pure,
        Eff.pure, settle]
    | parsed j =>
      cases j <;>
        simp [responseJson, hb, hok, throw, throwThe, MonadExceptOf.throw, Eff.throw, Eff.bind,
          pure, Eff.pure, readErrorField, settle, errorField]

/-- The call `mutate` in closed form. -/
theorem mutate_eq (env : Env) (data : ListingData) (t : Trace) :
    createListingMutation.mutate env data t =
      (.ok (), t ++ .postListing data ::
        settledEvents (settle env "Failed to create listing" (env.createListing data))) := by
  unfold createListingMutation.mutate
  rw [createListing_mutationFn_eq]
  cases settle env "Failed to create listing" (env.createListing data) <;>
    simp [settledEvents, createListingMutation.onSuccess, createListingMutation.onError, emit,
      bind, Eff.bind]

/-- A form with a missing required text only raises the validation alert. -/
theorem handleSubmit_invalid (env : Env) (s : DonateState) (t : Trace)
    (h : missingRequired s.formData = true) :
    handleSubmit env s t = (.ok (), t ++ [.alert "Error" requiredFieldsMessage]) := by
  unfold missingRequired at h
  simp [handleSubmit, h, emit]

/-- The handler on a form that passes validation, in closed form. -/
theorem handleSubmit_valid (env : Env) (s : DonateState) (t : Trace)
    (h : missingRequired s.formData = false) :
    handleSubmit env s t =
      if s.formData.expiry_date = "" then
        createListingMutation.mutate env
          (listingPayload s (uploadStageUrls env s t) none)
          (t ++ uploadStageEvents env s t ++ [.consoleLog "Creating listing with data:"])
      else
        match env.parseDate s.formData.expiry_date with
        | some iso =>
          createListingMutation.mutate env
            (listingPayload s (uploadStageUrls env s t) (some iso))
            (t ++ uploadStageEvents env s t ++ [.consoleLog "Creating listing with data:"])
        | none =>
          (.ok (), t ++ uploadStageEvents env s t ++
            [.consoleError "Submit error:" (.rangeError env.invalidTimeMessage),
              .alert "Error" ("Failed to create listing: " ++ env.invalidTimeMessage)]) := by
  unfold missingRequired at h
  have hcount : uploadCount (t ++ [Event.consoleLog "Uploading images..."]) = uploadCount t := by
    simp [uploadCount]
  cases himg : s.selectedImages <;> by_cases hexp : s.formData.expiry_date = "" <;>
    cases hd : env.parseDate s.formData.expiry_date <;>
    simp [handleSubmit, h, tryCatch, tryCatchThe, MonadExcept.tryCatch, Eff.tryCatch, bind,
      Eff.bind, emit, pure, Eff.pure, uploadImages_eq, mutate_eq, uploadStageEvents,
      uploadStageUrls, hcount, listingPayload, himg, hexp, hd, outcomesFrom, toISOString, throw, throwThe,
      MonadExceptOf.throw, Eff.throw, JSError.message]

theorem performedBy_of_eq {α : Type} (m : Eff α) (t : Trace) (r : Except JSError α)
    (evs : List Event) (h : m t = (r, t ++ evs)) : performedBy m t = evs := by
  simp [performedBy, h]

theorem uploadCalls_uploadStageEvents (env : Env) (s : DonateState) (t : Trace) :
    uploadCalls (uploadStageEvents env s t) = s.selectedImages := by
  unfold uploadStageEvents
  cases h : s.selectedImages with
  | nil => simp [uploadCalls]
  | cons a rest =>
    have := uploadCalls_loopEvents env (a :: rest) (uploadCount t)
    simp only [uploadCalls] at this ⊢
    simp [this]

theorem postedListings_uploadStageEvents (env : Env) (s : DonateState) (t : Trace) :
    postedListings (uploadStageEvents env s t) = [] := by
  unfold uploadStageEvents
  cases h : s.selectedImages with
  | nil => simp [postedListings]
  | cons a rest =>
    have := postedListings_loopEvents env (a :: rest) (uploadCount t)
    simp only [postedListings] at this ⊢
    simp [this]

theorem postedListings_settledEvents (r : Except JSError Json) :
    postedListings (settledEvents r) = [] := by
  cases r <;> simp [settledEvents, postedListings]

theorem uploadCalls_settledEvents (r : Except JSError Json) :
    uploadCalls (settledEvents r) = [] := by
  cases r <;> simp [settledEvents, uploadCalls]

/-- The actions of the handler on a valid form whose expiry text is empty or a
date: the upload step, the log line, the request, and what follows it. -/
theorem handleSubmit_performs (env : Env) (s : DonateState) (t : Trace)
    (hvalid : missingRequired s.formData = false)
    (hexp : s.formData.expiry_date = "" ∨ (env.parseDate s.formData.expiry_date).isSome) :
    performedBy (handleSubmit env s) t =
      uploadStageEvents env s t ++ .consoleLog "Creating listing with data:" ::
        .postListing (listingPayload s (uploadStageUrls env s t)
          (if s.formData.expiry_date = "" then none else env.parseDate s.formData.expiry_date)) ::
        settledEvents (settle env "Failed to create listing"
          (env.createListing (listingPayload s (uploadStageUrls env s t)
            (if s.formData.expiry_date = "" then none
              else env.parseDate s.formData.expiry_date)))) := by
  apply performedBy_of_eq _ _ (.ok ())
  rw [handleSubmit_valid env s t hvalid]
  by_cases he : s.formData.expiry_date = ""
  · simp [he, mutate_eq]
  · rcases hexp with h | h
    · exact absurd h he
    · obtain ⟨iso, hiso⟩ := Option.isSome_iff_exists.mp h
      simp [he, hiso, mutate_eq]

/-- C4 (as stated, refuted): a form whose quantity is 0 (the text `"0"`) with
the other required fields filled in passes validation; no validation alert is
raised and the create-listing request is sent. -/
theorem handleSubmit_zero_quantity_sends_request :
    parseInt zeroQuantityState.formData.quantity = some 0 ∧
      (handleSubmit secondUploadFails zeroQuantityState []).2 =
        [.consoleLog "Creating listing with data:",
          .postListing (listingPayload zeroQuantityState [] none),
          .invalidateQueries listingsGroup, .invalidateQueries recentListingsGroup,
          .invalidateQueries userStatsGroup,
          .alert "Success" "Your food donation has been listed!"] := by
  exact ⟨by decide, by decide⟩

/-- C4 (amended): for every form state in which the title, the quantity text,
the unit or the pickup location is empty, `handleSubmit` ends with the
validation alert and makes no network call: no upload is started and no
create-listing request is sent. -/
theorem handleSubmit_missing_field_no_network (env : Env) (s : DonateState) (t : Trace)
    (h : s.formData.title = "" ∨ s.formData.quantity = "" ∨ s.formData.unit = "" ∨
      s.formData.pickup_location = "") :
    handleSubmit env s t = (.ok (), t ++ [.alert "Error" requiredFieldsMessage]) ∧
      (∀ ev ∈ performedBy (handleSubmit env s) t, ev.isNetworkCall = false) ∧
      uploadCalls (performedBy (handleSubmit env s) t) = [] ∧
      postedListings (performedBy (handleSubmit env s) t) = [] := by
  have hm : missingRequired s.formData = true := by
    unfold missingRequired
    rcases h with h | h | h | h <;> simp [h]
  have hrun := handleSubmit_invalid env s t hm
  have hp := performedBy_of_eq _ _ _ _ hrun
  refine ⟨hrun, ?_, ?_, ?_⟩ <;> simp [hp, Event.isNetworkCall, uploadCalls, postedListings]

/-- C4 (amended), at a form whose unit is empty while three images are
selected. -/
theorem handleSubmit_missing_field_no_network_witness :
    handleSubmit secondUploadFails noUnitState [] =
        (.ok (), [] ++ [.alert "Error" requiredFieldsMessage]) ∧
      uploadCalls (performedBy (handleSubmit secondUploadFails noUnitState) []) = [] :=
  ⟨(handleSubmit_missing_field_no_network secondUploadFails noUnitState []
      (Or.inr (Or.inr (Or.inl rfl)))).1,
    (handleSubmit_missing_field_no_network secondUploadFails noUnitState []
      (Or.inr (Or.inr (Or.inl rfl)))).2.2.1⟩

/-- C5 (as stated, refuted): the payload handed to the create-listing request
for the quantity text `"0"` has quantity 0, which is not greater than 0. -/
theorem handleSubmit_posts_zero_quantity :
    (postedListings (handleSubmit secondUploadFails zeroQuantityState []).2).map
        ListingData.quantity = [some 0] ∧ ¬ ((0 : Int) < 0) := by
  exact ⟨by decide, by decide⟩

/-- The create-listing requests sent by one run of the handler: none when a
required text is missing or the expiry text is not a date, one otherwise. -/
theorem postedListings_handleSubmit (env : Env) (s : DonateState) (t : Trace) :
    postedListings (performedBy (handleSubmit env s) t) =
      if missingRequired s.formData = true then []
      else if s.formData.expiry_date = "" then [listingPayload s (uploadStageUrls env s t) none]
      else
        match env.parseDate s.formData.expiry_date with
        | some iso => [listingPayload s (uploadStageUrls env s t) (some iso)]
        | none => [] := by
  cases hm : missingRequired s.formData with
  | true =>
    rw [performedBy_of_eq _ _ _ _ (handleSubmit_invalid env s t hm)]
    simp [postedListings]
  | false =>
    have hrun := handleSubmit_valid env s t hm
    by_cases he : s.formData.expiry_date = ""
    · rw [if_pos he, mutate_eq] at hrun
      simp only [List.append_assoc] at hrun
      rw [performedBy_of_eq _ _ _ _ hrun]
      simp only [postedListings_append, postedListings_uploadStageEvents, List.nil_append]
      have hs := postedListings_settledEvents (settle env "Failed to create listing"
        (env.createListing (listingPayload s (uploadStageUrls env s t) none)))
      simp only [postedListings] at hs
      simp [postedListings, hs, he]
    · rw [if_neg he] at hrun
      cases hd : env.parseDate s.formData.expiry_date with
      | none =>
        rw [hd] at hrun
        simp only [List.append_assoc] at hrun
        rw [performedBy_of_eq _ _ _ _ hrun]
        simp only [postedListings_append, postedListings_uploadStageEvents, List.nil_append]
        simp [postedListings, he]
      | some iso =>
        rw [hd] at hrun
        simp only at hrun
        rw [mutate_eq] at hrun
        simp only [List.append_assoc] at hrun
        rw [performedBy_of_eq _ _ _ _ hrun]
        simp only [postedListings_append, postedListings_uploadStageEvents, List.nil_append]
        have hs := postedListings_settledEvents (settle env "Failed to create listing"
          (env.createListing (listingPayload s (uploadStageUrls env s t) (some iso))))
        simp only [postedListings] at hs
        simp [postedListings, hs, he]

theorem missingRequired_eq_false (f : FormData) (h : missingRequired f = false) :
    f.title ≠ "" ∧ f.quantity ≠ "" ∧ f.unit ≠ "" ∧ f.pickup_location ≠ "" := by
  unfold missingRequired at h
  simp only [Bool.or_eq_false_iff, beq_eq_false_iff_ne] at h
  exact ⟨h.1.1.1, h.1.1.2, h.1.2, h.2⟩

/-- C5 (amended): every payload that `handleSubmit` hands to the create-listing
request has a non-empty title, a non-empty unit and a non-empty
pickup_location, taken unchanged from the form, and its quantity is what
`parseInt` returns for the form's non-empty quantity text: the double nearest
to the integer its leading digits denote, or no finite number. -/
theorem handleSubmit_payload_required_fields (env : Env) (s : DonateState) (t : Trace)
    (p : ListingData) (hp : p ∈ postedListings (performedBy (handleSubmit env s) t)) :
    p.title ≠ "" ∧ p.unit ≠ "" ∧ p.pickup_location ≠ "" ∧
      p.title = s.formData.title ∧ p.unit = s.formData.unit ∧
      p.pickup_location = s.formData.pickup_location ∧
      s.formData.quantity ≠ "" ∧ p.quantity = parseInt s.formData.quantity := by
  rw [postedListings_handleSubmit] at hp
  cases hm : missingRequired s.formData with
  | true => simp [hm] at hp
  | false =>
    obtain ⟨h1, h2, h3, h4⟩ := missingRequired_eq_false _ hm
    have key : ∃ e, p = listingPayload s (uploadStageUrls env s t) e := by
      by_cases he : s.formData.expiry_date = ""
      · simp [hm, he] at hp
        exact ⟨_, hp⟩
      · cases hd : env.parseDate s.formData.expiry_date with
        | none => simp [hm, he, hd] at hp
        | some iso =>
          simp [hm, he, hd] at hp
          exact ⟨_, hp⟩
    obtain ⟨e, rfl⟩ := key
    exact ⟨h1, h3, h4, rfl, rfl, rfl, h2, rfl⟩

/-- C5 (amended), at the bread form with three images. -/
theorem handleSubmit_payload_required_fields_witness :
    (listingPayload breadState (uploadStageUrls secondUploadFails breadState []) none).unit ≠ "" ∧
      (listingPayload breadState (uploadStageUrls secondUploadFails breadState []) none).quantity =
        parseInt breadState.formData.quantity :=
  have h := handleSubmit_payload_required_fields secondUploadFails breadState []
    (listingPayload breadState (uploadStageUrls secondUploadFails breadState []) none)
    (by decide)
  ⟨h.2.1, h.2.2.2.2.2.2.2⟩

/-- C6 (as stated, refuted): the bread form passes validation, yet with an
expiry text that is not a date the handler ends in the error alert after the
three uploads and sends no create-listing request. -/
theorem handleSubmit_bad_expiry_sends_nothing :
    missingRequired badExpiryState.formData = false ∧
      postedListings (handleSubmit secondUploadFails badExpiryState []).2 = [] ∧
      (handleSubmit secondUploadFails badExpiryState []).2.getLast? =
        some (.alert "Error" "Failed to create listing: Invalid time value") := by
  exact ⟨by decide, by decide, by decide⟩

/-- C6 (amended): for every form state that passes validation and whose expiry
text is empty or denotes a date, and for every behaviour of the upload hook,
`handleSubmit` sends the create-listing request exactly once, after having
called the upload hook exactly once per selected image, hence not at all when
no image is selected. -/
theorem handleSubmit_sends_create_once (env : Env) (s : DonateState) (t : Trace)
    (hvalid : missingRequired s.formData = false)
    (hexp : s.formData.expiry_date = "" ∨ (env.parseDate s.formData.expiry_date).isSome) :
    postedListings (performedBy (handleSubmit env s) t) =
        [listingPayload s (uploadStageUrls env s t)
          (if s.formData.expiry_date = "" then none
            else env.parseDate s.formData.expiry_date)] ∧
      uploadCalls (performedBy (handleSubmit env s) t) = s.selectedImages ∧
      (s.selectedImages = [] →
        performedBy (handleSubmit env s) t =
          .consoleLog "Creating listing with data:" ::
            performedBy
              (createListingMutation.mutate env
                (listingPayload s [] (if s.formData.expiry_date = "" then none
                  else env.parseDate s.formData.expiry_date)))
              (t ++ [.consoleLog "Creating listing with data:"])) := by
  have hperf := handleSubmit_performs env s t hvalid hexp
  refine ⟨?_, ?_, ?_⟩
  · rw [postedListings_handleSubmit]
    by_cases he : s.formData.expiry_date = ""
    · simp [hvalid, he]
    · rcases hexp with h | h
      · exact absurd h he
      · obtain ⟨iso, hiso⟩ := Option.isSome_iff_exists.mp h
        simp [hvalid, he, hiso]
  · rw [hperf, uploadCalls_append, uploadCalls_uploadStageEvents]
    have hs := uploadCalls_settledEvents (settle env "Failed to create listing"
      (env.createListing (listingPayload s (uploadStageUrls env s t)
        (if s.formData.expiry_date = "" then none else env.parseDate s.formData.expiry_date))))
    simp only [uploadCalls] at hs ⊢
    simp [hs]
  · intro hnone
    rw [hperf, performedBy_of_eq _ _ _ _ (mutate_eq env _ _)]
    simp [uploadStageEvents, uploadStageUrls, outcomesFrom, hnone]

/-- C6 (amended), at the bread form with three images of which the second
upload fails: one request, three upload calls. -/
theorem handleSubmit_sends_create_once_witness :
    postedListings (performedBy (handleSubmit secondUploadFails breadState) []) =
        [listingPayload breadState (uploadStageUrls secondUploadFails breadState []) none] ∧
      uploadCalls (performedBy (handleSubmit secondUploadFails breadState) []) = threeImages :=
  have h := handleSubmit_sends_create_once secondUploadFails breadState [] (by decide)
    (Or.inl rfl)
  ⟨h.1, h.2.1⟩

/-- The actions of `mutate` by the way the mutation function settles: when it
resolves, the three invalidations in order and then the success alert; when
it rejects, the error alert only. -/
theorem mutate_performs_by_settlement (env : Env) (listingData : ListingData)
    (t : Trace) :
    performedBy (createListingMutation.mutate env listingData) t =
        .postListing listingData ::
          (match (createListingMutation.mutationFn env listingData t).1 with
          | .ok _ =>
            [.invalidateQueries listingsGroup, .invalidateQueries recentListingsGroup,
              .invalidateQueries userStatsGroup,
              .alert "Success" "Your food donation has been listed!"]
          | .error e => [.alert "Error" e.message]) ∧
      invalidated (performedBy (createListingMutation.mutate env listingData) t) =
        (match (createListingMutation.mutationFn env listingData t).1 with
        | .ok _ => [listingsGroup, recentListingsGroup, userStatsGroup]
        | .error _ => []) := by
  rw [performedBy_of_eq _ _ _ _ (mutate_eq env listingData t), createListing_mutationFn_eq]
  cases settle env "Failed to create listing" (env.createListing listingData) <;>
    simp [settledEvents, invalidated]

/-- The truthy `error` property of a body is what the mutation's error
carries; otherwise the generic message is used. -/
theorem errorMessageOf_jsOr (field : JSVal) (generic : String) :
    errorMessageOf (jsOr field (.str generic)) =
      if truthy field then jsToString field else generic := by
  unfold jsOr
  cases hf : truthy field with
  | false => simp [errorMessageOf, jsToString]
  | true => cases field <;> simp_all [truthy, errorMessageOf, jsToString]

/-- C9 (as stated, refuted): on a 502 answer whose body is not JSON the
create-listing mutation and the profile mutation fail with the parse error of
`response.json()`, not with their generic message. -/
theorem mutationFn_non_json_body_parse_error :
    (createListingMutation.mutationFn gatewayDown (listingPayload breadState [] none) []).1 =
        .error (.jsonError "JSON Parse error: Unexpected token: <") ∧
      (createListingMutation.mutationFn gatewayDown (listingPayload breadState [] none) []).1 ≠
        .error (.error "Failed to create listing") ∧
      Response.ok ⟨502, .invalid "JSON Parse error: Unexpected token: <"⟩ = false := by
  refine ⟨rfl, ?_, by decide⟩
  rw [createListing_mutationFn_eq]
  simp [settle, gatewayDown, secondUploadFails]

/-- C9 (amended): for every answer whose body parses as JSON, the
create-listing mutation returns the parsed body when the answer is 2xx, and
when it is not 2xx and the body is not `null` it fails with the body's `error`
property as message when that property is set, and with
"Failed to create listing" otherwise; the profile mutation does the same with
"Failed to update profile". -/
theorem mutationFn_settles_on_json_body (env : Env) (t : Trace) :
    (∀ (listingData : ListingData) (r : Response) (body : Json),
      env.createListing listingData = .resolved r → r.body = .parsed body →
        (r.ok = true → (createListingMutation.mutationFn env listingData t).1 = .ok body) ∧
        (r.ok = false → body ≠ .null →
          (createListingMutation.mutationFn env listingData t).1 =
            .error (.error (serverMessageOr body "Failed to create listing")))) ∧
    (∀ (profileData : ProfileData) (r : Response) (body : Json),
      env.updateProfile profileData = .resolved r → r.body = .parsed body →
        (r.ok = true → (updateProfileMutation.mutationFn env profileData t).1 = .ok body) ∧
        (r.ok = false → body ≠ .null →
          (updateProfileMutation.mutationFn env profileData t).1 =
            .error (.error (serverMessageOr body "Failed to update profile")))) := by
  refine ⟨?_, ?_⟩
  · intro d r body hr hb
    rw [createListing_mutationFn_eq, hr]
    refine ⟨fun hok => ?_, fun hok hnull => ?_⟩
    · simp [settle, hb, hok]
    · simp [settle, hb, hok, hnull, errorMessageOf_jsOr, serverMessageOr]
  · intro d r body hr hb
    rw [updateProfile_mutationFn_eq, hr]
    refine ⟨fun hok => ?_, fun hok hnull => ?_⟩
    · simp [settle, hb, hok]
    · simp [settle, hb, hok, hnull, errorMessageOf_jsOr, serverMessageOr]

/-- C9 (amended), at a server that rejects with status 400 and a message. -/
theorem mutationFn_settles_on_json_body_witness :
    (createListingMutation.mutationFn serverRejects (listingPayload breadState [] none) []).1 =
      .error (.error "Title too long") :=
  ((mutationFn_settles_on_json_body serverRejects []).1 (listingPayload breadState [] none)
    ⟨400, .parsed (.obj [("error", .str "Title too long")])⟩
    (.obj [("error", .str "Title too long")]) rfl rfl).2 (by decide) (by decide)

/-! ## The listing search request -/

/-- C11: for every search text, category and location, the parameters of the
listing-search request are: `search` with the text iff the text is non-empty,
`category` with the category iff it is non-empty, and `latitude` and
`longitude` with the coordinates, together, iff a location is known, also
when a coordinate is 0; nothing else is sent. -/
theorem listingsQueryParams_exact (numberToString : Rat → String) (text category : String)
    (location : Option Coords) :
    listingsQueryParams numberToString (.str text) (.str category) location =
        (if text = "" then [] else [("search", text)]) ++
        (if category = "" then [] else [("category", category)]) ++
        (match location with
          | some c =>
            [("latitude", numberToString c.latitude), ("longitude", numberToString c.longitude)]
          | none => []) ∧
      ("search" ∈ (listingsQueryParams numberToString (.str text) (.str category) location).map
        Prod.fst ↔ text ≠ "") ∧
      ("category" ∈ (listingsQueryParams numberToString (.str text) (.str category) location).map
        Prod.fst ↔ category ≠ "") ∧
      ("latitude" ∈ (listingsQueryParams numberToString (.str text) (.str category) location).map
        Prod.fst ↔ location ≠ none) ∧
      ("longitude" ∈ (listingsQueryParams numberToString (.str text) (.str category) location).map
        Prod.fst ↔ location ≠ none) ∧
      (∀ name ∈ (listingsQueryParams numberToString (.str text) (.str category) location).map
        Prod.fst, name ∈ ["search", "category", "latitude", "longitude"]) ∧
      listingsQueryParams numberToString (.str text) (.str category) (some ⟨0, 0⟩) =
        (if text = "" then [] else [("search", text)]) ++
        (if category = "" then [] else [("category", category)]) ++
        [("latitude", numberToString 0), ("longitude", numberToString 0)] := by
  by_cases ht : text = "" <;> by_cases hc : category = "" <;> cases location <;>
    simp [listingsQueryParams, truthy, jsToString, ht, hc]

/-- C12: two listing searches have the same cache key exactly when they agree
on text, category and coordinates; in particular the key of the "show all"
search (empty text, empty category, no coordinates) is the key of no search
that specifies a text, a category or coordinates. -/
theorem listingsQueryKey_injective (text category text' category' : String)
    (location location' : Option Coords) :
    (listingsQueryKey (.str text) (.str category) location =
        listingsQueryKey (.str text') (.str category') location' ↔
      text = text' ∧ category = category' ∧ location = location') ∧
    (listingsQueryKey (.str text) (.str category) location =
        listingsQueryKey (.str "") (.str "") none ↔
      text = "" ∧ category = "" ∧ location = none) := by
  constructor <;> cases location <;> cases location' <;> simp [listingsQueryKey]

/-! ## The location effects -/

theorem performedBy_of_trace {α : Type} (m : Eff α) (t : Trace) (evs : List Event)
    (h : (m t).2 = t ++ evs) : performedBy m t = evs := by
  simp [performedBy, h]

/-- The discover effect when the permission status is not `granted`. -/
theorem discover_locationEffect_not_granted (dev : Device) (status : String) (t : Trace)
    (hperm : dev.requestPermission = .ok status) (hs : status ≠ "granted") :
    DiscoverScreen.locationEffect dev t = (.ok (), t ++ [.requestPermission]) := by
  simp [DiscoverScreen.locationEffect, requestForegroundPermissions, hperm, hs, bind, Eff.bind,
    pure, Eff.pure]

/-- The donate effect when the permission status is not `granted`. -/
theorem donate_locationEffect_not_granted (dev : Device) (formData : FormData) (status : String)
    (t : Trace) (hperm : dev.requestPermission = .ok status) (hs : status ≠ "granted") :
    DonateScreen.locationEffect dev formData t = (.ok (), t ++ [.requestPermission]) := by
  simp [DonateScreen.locationEffect, requestForegroundPermissions, hperm, hs, bind, Eff.bind,
    pure, Eff.pure]

/-- The listings fetcher sends exactly one request, with the parameters built
from its inputs, whatever the server answers. -/
theorem listingsQueryFn_performs (api : Backend) (numberToString : Rat → String)
    (searchQuery selectedCategory : JSVal) (location : Option Coords) (t : Trace) :
    performedBy
        (DiscoverScreen.listingsQueryFn api numberToString searchQuery selectedCategory location)
        t =
      [.getListings (listingsQueryParams numberToString searchQuery selectedCategory location)] := by
  apply performedBy_of_trace
  simp only [DiscoverScreen.listingsQueryFn, bind, Eff.bind, emit]
  cases api.getListings
      (listingsQueryParams numberToString searchQuery selectedCategory location) with
  | rejected m => simp [throw, throwThe, MonadExceptOf.throw, Eff.throw]
  | resolved r =>
    cases hok : r.ok <;> cases hb : r.body <;>
      simp [hok, hb, responseJson, throw, throwThe, MonadExceptOf.throw, Eff.throw, Eff.bind,
        pure, Eff.pure]

/-- Every payload the handler posts carries the coordinates of the stored
location. -/
theorem handleSubmit_payload_coordinates (env : Env) (s : DonateState) (t : Trace)
    (p : ListingData) (hp : p ∈ postedListings (performedBy (handleSubmit env s) t)) :
    p.pickup_latitude = s.location.map Coords.latitude ∧
      p.pickup_longitude = s.location.map Coords.longitude := by
  rw [postedListings_handleSubmit] at hp
  cases hm : missingRequired s.formData with
  | true => simp [hm] at hp
  | false =>
    have key : ∃ e, p = listingPayload s (uploadStageUrls env s t) e := by
      by_cases he : s.formData.expiry_date = ""
      · simp [hm, he] at hp
        exact ⟨_, hp⟩
      · cases hd : env.parseDate s.formData.expiry_date with
        | none => simp [hm, he, hd] at hp
        | some iso =>
          simp [hm, he, hd] at hp
          exact ⟨_, hp⟩
    obtain ⟨e, rfl⟩ := key
    exact ⟨rfl, rfl⟩

/-- C13: when the permission request returns a status other than `granted`,
neither the discover nor the donate effect attempts a position read and the
stored location stays null; the listing search is then still sent, with no
latitude and no longitude parameter, and a donation submitted in that state
posts a payload without pickup coordinates (and a valid form is still
posted). -/
theorem permission_not_granted_degrades (dev : Device) (status : String)
    (hperm : dev.requestPermission = .ok status) (hs : status ≠ "granted")
    (formData : FormData) (api : Backend) (numberToString : Rat → String)
    (searchQuery selectedCategory : JSVal) (env : Env) (s : DonateState) (t u : Trace) :
    performedBy (DiscoverScreen.locationEffect dev) t = [.requestPermission] ∧
    performedBy (DonateScreen.locationEffect dev formData) t = [.requestPermission] ∧
    positionReads (performedBy (DiscoverScreen.locationEffect dev) t) = 0 ∧
    positionReads (performedBy (DonateScreen.locationEffect dev formData) t) = 0 ∧
    storedLocation none (performedBy (DiscoverScreen.locationEffect dev) t) = none ∧
    storedLocation none (performedBy (DonateScreen.locationEffect dev formData) t) = none ∧
    performedBy
        (DiscoverScreen.listingsQueryFn api numberToString searchQuery selectedCategory
          (storedLocation none (performedBy (DiscoverScreen.locationEffect dev) t))) u =
      [.getListings (listingsQueryParams numberToString searchQuery selectedCategory none)] ∧
    "latitude" ∉ (listingsQueryParams numberToString searchQuery selectedCategory none).map
      Prod.fst ∧
    "longitude" ∉ (listingsQueryParams numberToString searchQuery selectedCategory none).map
      Prod.fst ∧
    (∀ p ∈ postedListings (performedBy (handleSubmit env
        { s with location :=
          storedLocation none (performedBy (DonateScreen.locationEffect dev formData) t) }) u),
      p.pickup_latitude = none ∧ p.pickup_longitude = none) ∧
    (missingRequired s.formData = false → s.formData.expiry_date = "" →
      (postedListings (performedBy (handleSubmit env
        { s with location :=
          storedLocation none (performedBy (DonateScreen.locationEffect dev formData) t) })
        u)).length = 1) := by
  have h1 := performedBy_of_eq _ _ _ _ (discover_locationEffect_not_granted dev status t hperm hs)
  have h2 := performedBy_of_eq _ _ _ _
    (donate_locationEffect_not_granted dev formData status t hperm hs)
  rw [h1, h2]
  have hloc : storedLocation none [Event.requestPermission] = none := rfl
  rw [hloc]
  refine ⟨rfl, rfl, rfl, rfl, rfl, rfl, listingsQueryFn_performs _ _ _ _ _ _, ?_, ?_, ?_, ?_⟩
  · cases h : truthy searchQuery <;> cases h' : truthy selectedCategory <;>
      simp [listingsQueryParams, h, h']
  · cases h : truthy searchQuery <;> cases h' : truthy selectedCategory <;>
      simp [listingsQueryParams, h, h']
  · intro p hp
    have := handleSubmit_payload_coordinates env _ u p hp
    simpa using this
  · intro hvalid hexp
    rw [postedListings_handleSubmit]
    simp [hvalid, hexp]

/-- C13, on a device whose user refuses the permission. -/
theorem permission_not_granted_degrades_witness :
    performedBy (DiscoverScreen.locationEffect permissionDenied) [] = [.requestPermission] ∧
      storedLocation none (performedBy (DonateScreen.locationEffect permissionDenied emptyForm) []) =
        none :=
  have h := permission_not_granted_degrades permissionDenied "denied" rfl (by decide) emptyForm
    emptyBackend (fun _ => "0") (.str "") (.str "") secondUploadFails breadState [] []
  ⟨h.1, h.2.2.2.2.2.1⟩

theorem storedLocation_unchanged (evs : List Event) :
    ∀ location : Option Coords, (∀ a, Event.setLocation a ∉ evs) →
      storedLocation location evs = location := by
  induction evs with
  | nil => intro location _; rfl
  | cons ev rest ih =>
    intro location h
    have hrest : ∀ a, Event.setLocation a ∉ rest := fun a ha => h a (List.mem_cons_of_mem _ ha)
    have hev : ∀ a, ev ≠ Event.setLocation a := fun a he => h a (he ▸ List.mem_cons_self _ _)
    have := ih location hrest
    cases ev <;> simp_all [storedLocation]

theorem pickupLocationAfter_unchanged (evs : List Event) :
    ∀ text : String, (∀ a, Event.setPickupLocation a ∉ evs) →
      pickupLocationAfter text evs = text := by
  induction evs with
  | nil => intro text _; rfl
  | cons ev rest ih =>
    intro text h
    have hrest : ∀ a, Event.setPickupLocation a ∉ rest :=
      fun a ha => h a (List.mem_cons_of_mem _ ha)
    have hev : ∀ a, ev ≠ Event.setPickupLocation a :=
      fun a he => h a (he ▸ List.mem_cons_self _ _)
    have := ih text hrest
    cases ev <;> simp_all [pickupLocationAfter]

theorem addressAfter_unchanged (evs : List Event) :
    ∀ text : String, (∀ a, Event.setAddress a ∉ evs) → addressAfter text evs = text := by
  induction evs with
  | nil => intro text _; rfl
  | cons ev rest ih =>
    intro text h
    have hrest : ∀ a, Event.setAddress a ∉ rest := fun a ha => h a (List.mem_cons_of_mem _ ha)
    have hev : ∀ a, ev ≠ Event.setAddress a := fun a he => h a (he ▸ List.mem_cons_self _ _)
    have := ih text hrest
    cases ev <;> simp_all [addressAfter]

theorem storedLocation_after_set (location : Option Coords) (coords : Coords)
    (tail : List Event) (h : ∀ a, Event.setLocation a ∉ tail) :
    storedLocation location
      ([.requestPermission, .getCurrentPosition, .setLocation coords] ++ tail) = some coords := by
  have := storedLocation_unchanged tail (some coords) h
  simpa [storedLocation] using this

/-- C14: in the donate effect and in `getUserLocation`, once the permission is
granted and the position read has succeeded, the stored location is the
coordinates read, whatever the reverse-geocode lookup does; when the lookup
rejects or returns no entry, the pickup location of the donate form and the
address of the profile form are left as they were. -/
theorem position_stored_whatever_geocoding (dev : Device) (coords : Coords)
    (hperm : dev.requestPermission = .ok "granted") (hpos : dev.currentPosition = .ok coords)
    (formData : FormData) (location : Option Coords) (t : Trace) :
    storedLocation location (performedBy (DonateScreen.locationEffect dev formData) t) =
      some coords ∧
    storedLocation location (performedBy (getUserLocation dev) t) = some coords ∧
    (((∃ e, dev.reverseGeocode coords = .error e) ∨ dev.reverseGeocode coords = .ok []) →
      ∀ text : String,
        pickupLocationAfter text (performedBy (DonateScreen.locationEffect dev formData) t) =
          text ∧
        addressAfter text (performedBy (getUserLocation dev) t) = text) := by
  have hd : ∃ tail, (∀ a, Event.setLocation a ∉ tail) ∧
      (((∃ e, dev.reverseGeocode coords = .error e) ∨ dev.reverseGeocode coords = .ok []) →
        ∀ a, Event.setPickupLocation a ∉ tail) ∧
      (DonateScreen.locationEffect dev formData t).2 =
        t ++ ([.requestPermission, .getCurrentPosition, .setLocation coords] ++ tail) := by
    by_cases hp : formData.pickup_location = ""
    · cases hg : dev.reverseGeocode coords with
      | error e =>
        exact ⟨[.reverseGeocode coords], by simp, by simp, by
          simp [DonateScreen.locationEffect, requestForegroundPermissions, getCurrentPosition,
            reverseGeocode, hperm, hpos, hp, hg, bind, Eff.bind, pure, Eff.pure, emit]⟩
      | ok l =>
        cases l with
        | nil =>
          exact ⟨[.reverseGeocode coords], by simp, by simp, by
            simp [DonateScreen.locationEffect, requestForegroundPermissions, getCurrentPosition,
              reverseGeocode, hperm, hpos, hp, hg, bind, Eff.bind, pure, Eff.pure, emit]⟩
        | cons a rest =>
          exact ⟨[.reverseGeocode coords, .setPickupLocation (addressLine a)], by simp,
            by simp, by
            simp [DonateScreen.locationEffect, requestForegroundPermissions, getCurrentPosition,
              reverseGeocode, hperm, hpos, hp, hg, bind, Eff.bind, pure, Eff.pure, emit]⟩
    · exact ⟨[], by simp, by simp, by
        simp [DonateScreen.locationEffect, requestForegroundPermissions, getCurrentPosition,
          hperm, hpos, hp, bind, Eff.bind, pure, Eff.pure, emit]⟩
  have hu : ∃ tail, (∀ a, Event.setLocation a ∉ tail) ∧
      (((∃ e, dev.reverseGeocode coords = .error e) ∨ dev.reverseGeocode coords = .ok []) →
        ∀ a, Event.setAddress a ∉ tail) ∧
      (getUserLocation dev t).2 =
        t ++ ([.requestPermission, .getCurrentPosition, .setLocation coords] ++ tail) := by
    cases hg : dev.reverseGeocode coords with
    | error e =>
      exact ⟨[.reverseGeocode coords, .alert "Error" "Could not get your location"], by simp,
        by simp, by
        simp [getUserLocation, requestForegroundPermissions, getCurrentPosition, reverseGeocode,
          hperm, hpos, hg, bind, Eff.bind, pure, Eff.pure, emit, tryCatch, tryCatchThe,
          MonadExcept.tryCatch, Eff.tryCatch]⟩
    | ok l =>
      cases l with
      | nil =>
        exact ⟨[.reverseGeocode coords], by simp, by simp, by
          simp [getUserLocation, requestForegroundPermissions, getCurrentPosition,
            reverseGeocode, hperm, hpos, hg, bind, Eff.bind, pure, Eff.pure, emit, tryCatch,
            tryCatchThe, MonadExcept.tryCatch, Eff.tryCatch]⟩
      | cons a rest =>
        exact ⟨[.reverseGeocode coords, .setAddress (addressLine a)], by simp, by simp, by
          simp [getUserLocation, requestForegroundPermissions, getCurrentPosition,
            reverseGeocode, hperm, hpos, hg, bind, Eff.bind, pure, Eff.pure, emit, tryCatch,
            tryCatchThe, MonadExcept.tryCatch, Eff.tryCatch]⟩
  obtain ⟨tailD, hD1, hD2, hD3⟩ := hd
  obtain ⟨tailU, hU1, hU2, hU3⟩ := hu
  rw [performedBy_of_trace _ _ _ hD3, performedBy_of_trace _ _ _ hU3]
  refine ⟨storedLocation_after_set _ _ _ hD1, storedLocation_after_set _ _ _ hU1, ?_⟩
  intro hfail text
  refine ⟨pickupLocationAfter_unchanged _ text ?_, addressAfter_unchanged _ text ?_⟩
  · intro a ha
    simp only [List.mem_append, List.mem_cons, List.mem_singleton, List.not_mem_nil] at ha
    rcases ha with (h | h | h | h) | h
    · cases h
    · cases h
    · cases h
    · exact h
    · exact hD2 hfail a h
  · intro a ha
    simp only [List.mem_append, List.mem_cons, List.mem_singleton, List.not_mem_nil] at ha
    rcases ha with (h | h | h | h) | h
    · cases h
    · cases h
    · cases h
    · exact h
    · exact hU2 hfail a h

/-- C14, on a device whose reverse-geocode lookup rejects. -/
theorem position_stored_whatever_geocoding_witness :
    storedLocation none (performedBy (DonateScreen.locationEffect geocoderDown emptyForm) []) =
        some ⟨52, 13⟩ ∧
      storedLocation none (performedBy (getUserLocation geocoderDown) []) = some ⟨52, 13⟩ ∧
      addressAfter "5 Elm Rd" (performedBy (getUserLocation geocoderDown) []) = "5 Elm Rd" :=
  have h := position_stored_whatever_geocoding geocoderDown ⟨52, 13⟩ rfl rfl emptyForm none []
  ⟨h.1, h.2.1, (h.2.2 (Or.inl ⟨_, rfl⟩) "5 Elm Rd").2⟩

/-! ## The address line -/

theorem mem_dropWhile_of_not {p : Char → Bool} (c : Char) (hc : p c = false) :
    ∀ l : List Char, c ∈ l → c ∈ l.dropWhile p := by
  intro l
  induction l with
  | nil => intro h; exact h
  | cons a rest ih =>
    intro h
    by_cases ha : p a = true
    · rw [List.dropWhile_cons_of_pos ha]
      rcases List.mem_cons.mp h with h | h
      · subst h; rw [hc] at ha; cases ha
      · exact ih h
    · rw [List.dropWhile_cons_of_neg ha]
      exact h

/-- Trimming keeps every character that is not white space. -/
theorem mem_trim_of_not_space (c : Char) (hc : isStrWhiteSpace c = false) (l : List Char)
    (h : c ∈ l) : c ∈ trimEnd (trimStart l) := by
  unfold trimEnd trimStart
  rw [List.mem_reverse]
  apply mem_dropWhile_of_not c hc
  rw [List.mem_reverse]
  exact mem_dropWhile_of_not c hc l h

theorem trimStart_blank (l : List Char) : trimStart (' ' :: l) = trimStart l := by
  have : isStrWhiteSpace ' ' = true := by decide
  simp [trimStart, List.dropWhile_cons, this]

theorem trimStart_of_head (c : Char) (l : List Char) (hc : isStrWhiteSpace c = false) :
    trimStart (c :: l) = c :: l := by
  simp [trimStart, List.dropWhile_cons, hc]

theorem trimEnd_of_last (l : List Char) (c : Char) (hc : isStrWhiteSpace c = false) :
    trimEnd (l ++ [c]) = l ++ [c] := by
  simp [trimEnd, List.dropWhile_cons, hc]

/-- The comma of the template is never trimmed away. -/
theorem comma_mem_addressLine (addr : Address) : ',' ∈ (addressLine addr).toList := by
  have hc : isStrWhiteSpace ',' = false := by decide
  unfold addressLine jsTrim
  apply mem_trim_of_not_space ',' hc
  simp [String.toList]

theorem addressLine_ne_empty (addr : Address) : addressLine addr ≠ "" := by
  intro h
  have := comma_mem_addressLine addr
  rw [h] at this
  simp at this

/-- The trimmed template keeps its final comma when the region is absent. -/
theorem trim_keeps_final_comma (pre : List Char) :
    ∃ x, trimEnd (trimStart (pre ++ [',', ' '])) = x ++ [','] := by
  have hc : isStrWhiteSpace ',' = false := by decide
  have hb : isStrWhiteSpace ' ' = true := by decide
  have hstart : ∃ x, trimStart (pre ++ [',', ' ']) = x ++ [',', ' '] := by
    induction pre with
    | nil => exact ⟨[], by simp [trimStart, List.dropWhile_cons, hc]⟩
    | cons a rest ih =>
      by_cases ha : isStrWhiteSpace a = true
      · obtain ⟨x, hx⟩ := ih
        refine ⟨x, ?_⟩
        simp only [trimStart] at hx ⊢
        simp [List.dropWhile_cons, ha, hx]
      · exact ⟨a :: rest, by simp [trimStart, List.dropWhile_cons, ha]⟩
  obtain ⟨x, hx⟩ := hstart
  refine ⟨x, ?_⟩
  rw [hx]
  simp [trimEnd, List.dropWhile_cons, hc, hb]

/-- C15 (as stated, refuted): with no street, city "Springfield" and a region
text that ends with a blank, the address line is not the city, a comma, a
blank and the region: the final blank is trimmed away. -/
theorem addressLine_trims_region :
    addressLine ⟨none, some "Springfield", some "IL "⟩ = "Springfield, IL" ∧
      addressLine ⟨none, some "Springfield", some "IL "⟩ ≠ "Springfield" ++ ", " ++ "IL " := by
  exact ⟨by decide, by decide⟩

/-- C15 (amended): for every reverse-geocode entry with no street (absent or
empty) and a city and a region, the address line is the text
"city, region" with white space removed at its two ends, it is never empty,
and it is exactly "city, region" whenever the city starts and the region
ends with a character that is not white space. -/
theorem addressLine_city_region (city region : String) :
    addressLine ⟨none, some city, some region⟩ = jsTrim (city ++ ", " ++ region) ∧
    addressLine ⟨some "", some city, some region⟩ = jsTrim (city ++ ", " ++ region) ∧
    addressLine ⟨none, some city, some region⟩ ≠ "" ∧
    ((∃ c cs, city.toList = c :: cs ∧ isStrWhiteSpace c = false) →
      (∃ rs r, region.toList = rs ++ [r] ∧ isStrWhiteSpace r = false) →
      addressLine ⟨none, some city, some region⟩ = city ++ ", " ++ region) := by
  have h1 : addressLine ⟨none, some city, some region⟩ = jsTrim (city ++ ", " ++ region) := by
    simp only [addressLine, jsTrim, orEmpty, Option.getD, String.toList, String.data_append]
    have : ("" : String).data ++ (" " : String).data = ' ' :: [] := by decide
    rw [this]
    simp only [List.cons_append, List.nil_append, trimStart_blank]
  have h2 : addressLine ⟨some "", some city, some region⟩ = jsTrim (city ++ ", " ++ region) :=
    h1
  refine ⟨h1, h2, addressLine_ne_empty _, ?_⟩
  rintro ⟨c, cs, hcity, hc⟩ ⟨rs, r, hregion, hr⟩
  rw [h1]
  apply String.ext
  simp only [jsTrim, String.toList, String.data_append] at hcity hregion ⊢
  rw [hcity, hregion]
  have hcomma : (", " : String).data = [',', ' '] := by decide
  have hstart : trimStart (c :: cs ++ [',', ' '] ++ (rs ++ [r])) =
      (c :: cs ++ [',', ' '] ++ rs) ++ [r] := by
    simp only [List.cons_append, List.append_assoc]
    exact trimStart_of_head c _ hc
  rw [hstart, trimEnd_of_last _ r hr]
  simp

/-- C15 (amended), at city "Springfield" and region "IL". -/
theorem addressLine_city_region_witness :
    addressLine ⟨none, some "Springfield", some "IL"⟩ = "Springfield" ++ ", " ++ "IL" :=
  (addressLine_city_region "Springfield" "IL").2.2.2
    ⟨'S', "pringfield".toList, by decide, by decide⟩ ⟨['I'], 'L', by decide, by decide⟩

/-- C16 (as stated, refuted): a result with all three components absent gives
a comma, not the empty string; an absent region leaves a trailing comma, and
an absent city leaves the blank and the comma of the template. -/
theorem addressLine_keeps_separators :
    addressLine ⟨none, none, none⟩ = "," ∧
      addressLine ⟨some "1 Main St", some "Springfield", none⟩ = "1 Main St Springfield," ∧
      addressLine ⟨some "1 Main St", none, some "IL"⟩ = "1 Main St , IL" := by
  exact ⟨by decide, by decide, by decide⟩

/-- C16 (amended): for every subset of street, city and region being absent,
the address line is the fixed template "street city, region" with each absent
component replaced by the empty text and white space removed at the two ends
only; the comma of the template is always kept, so the line is never empty, a
result with all three absent gives ",", and an absent region leaves the comma
as the last character. -/
theorem addressLine_template (addr : Address) :
    addressLine addr =
        jsTrim (addr.street.getD "" ++ " " ++ addr.city.getD "" ++ ", " ++ addr.region.getD "") ∧
      ',' ∈ (addressLine addr).toList ∧
      addressLine addr ≠ "" ∧
      addressLine ⟨none, none, none⟩ = "," ∧
      (addressLine ⟨addr.street, addr.city, none⟩).toList.getLast? = some ',' := by
  refine ⟨rfl, comma_mem_addressLine addr, addressLine_ne_empty addr, by decide, ?_⟩
  obtain ⟨x, hx⟩ := trim_keeps_final_comma
    ((addr.street.getD "").data ++ ' ' :: (addr.city.getD "").data)
  have hcomma : (", " : String).data = [',', ' '] := by decide
  have hblank : (" " : String).data = [' '] := by decide
  have hempty : ("" : String).data = [] := by decide
  simp only [addressLine, jsTrim, orEmpty, Option.getD_none, String.toList, String.data_append,
    hcomma, hblank, hempty, List.append_nil]
  simp only [List.append_assoc, List.singleton_append] at hx ⊢
  rw [hx]
  simp

/-! ## The donate screen -/

/-- C17: the donate screen shows the donation form, the only place where a
press reaches `handleSubmit`, iff the user is signed in, the profile query is
not loading and the fetched profile is set (an object; not `undefined`, not
`null`); otherwise it shows the sign-in, the loading or the
complete-your-profile screen, and a press there performs nothing, so no
create-listing request is sent. -/
theorem donationForm_iff_profile (env : Env) (s : DonateState) (auth : JSVal)
    (profileLoading : Bool) (userProfile : Option Json) (isLoading uploadLoading : Bool)
    (t : Trace) :
    (DonateScreen.view auth profileLoading userProfile = .donationForm ↔
      truthy auth = true ∧ profileLoading = false ∧ dataTruthy userProfile = true) ∧
    (truthy auth = false → DonateScreen.view auth profileLoading userProfile = .signIn) ∧
    (truthy auth = true → profileLoading = true →
      DonateScreen.view auth profileLoading userProfile = .loadingProfile) ∧
    (truthy auth = true → profileLoading = false → dataTruthy userProfile = false →
      DonateScreen.view auth profileLoading userProfile = .completeProfile) ∧
    (dataTruthy none = false ∧ dataTruthy (some .null) = false ∧
      ∀ fields, dataTruthy (some (.obj fields)) = true) ∧
    ((truthy auth = false ∨ profileLoading = true ∨ dataTruthy userProfile = false) →
      performedBy
          (DonateScreen.pressSubmit env s auth profileLoading userProfile isLoading uploadLoading)
          t = [] ∧
        postedListings (performedBy
          (DonateScreen.pressSubmit env s auth profileLoading userProfile isLoading uploadLoading)
          t) = []) := by
  refine ⟨?_, ?_, ?_, ?_, ⟨rfl, rfl, fun _ => rfl⟩, ?_⟩
  · cases ha : truthy auth <;> cases profileLoading <;> cases hp : dataTruthy userProfile <;>
      simp [DonateScreen.view, ha, hp]
  · intro ha; simp [DonateScreen.view, ha]
  · intro ha hl; simp [DonateScreen.view, ha, hl]
  · intro ha hl hp; simp [DonateScreen.view, ha, hl, hp]
  · intro h
    have hview : DonateScreen.view auth profileLoading userProfile ≠ .donationForm := by
      cases ha : truthy auth <;> cases hl : profileLoading <;>
        cases hp : dataTruthy userProfile <;> simp_all [DonateScreen.view]
    have hrun : DonateScreen.pressSubmit env s auth profileLoading userProfile isLoading
        uploadLoading t = (.ok (), t ++ []) := by
      unfold DonateScreen.pressSubmit
      cases hv : DonateScreen.view auth profileLoading userProfile <;>
        simp_all [pure, Eff.pure]
    rw [performedBy_of_eq _ _ _ _ hrun]
    exact ⟨rfl, rfl⟩

/-- C17, for a signed-in user whose profile read gave `null`. -/
theorem donationForm_iff_profile_witness :
    DonateScreen.view (.obj "session") false (some .null) = .completeProfile ∧
      postedListings (performedBy
        (DonateScreen.pressSubmit secondUploadFails breadState (.obj "session") false (some .null)
          false false) []) = [] :=
  have h := donationForm_iff_profile secondUploadFails breadState (.obj "session") false
    (some .null) false false []
  ⟨h.2.2.2.1 rfl rfl rfl, (h.2.2.2.2.2 (Or.inr (Or.inr rfl))).2⟩

/-- C18 (the code at the failing input): on a 404 answer to the profile read
the fetcher of the donate screen resolves to `null`, while the fetcher the
profile screen registers under the same key rejects with
"Failed to fetch profile". -/
theorem userProfile_fetchers_differ_on_404 :
    Response.ok ⟨404, .parsed (.obj [("error", .str "Profile not found")])⟩ = false ∧
      (DonateScreen.userProfileQueryFn noProfileBackend []).1 = .ok .null ∧
      (ProfileScreen.userProfileQueryFn noProfileBackend []).1 =
        .error (.error "Failed to fetch profile") := by
  exact ⟨by decide, rfl, rfl⟩

/-- On every answer other than a 404 the two profile fetchers settle alike:
the parsed body on a 2xx answer, the error "Failed to fetch profile" on any
other one. -/
theorem userProfile_fetchers_agree_off_404 (api : Backend) (t : Trace)
    (h : ∀ r, api.getProfile = .resolved r → r.status ≠ 404) :
    DonateScreen.userProfileQueryFn api t = ProfileScreen.userProfileQueryFn api t := by
  simp only [DonateScreen.userProfileQueryFn, ProfileScreen.userProfileQueryFn, bind, Eff.bind,
    emit]
  cases hg : api.getProfile with
  | rejected m => rfl
  | resolved r =>
    have h404 := h r hg
    cases hok : r.ok <;> cases hb : r.body <;>
      simp [hok, hb, h404, responseJson, throw, throwThe, MonadExceptOf.throw, Eff.throw,
        Eff.bind, pure, Eff.pure]

/-- The upload calls of one run of the handler: none when a required text is
missing, one per selected image otherwise, whatever was done before. -/
theorem uploadCalls_handleSubmit (env : Env) (s : DonateState) (t : Trace) :
    uploadCalls (performedBy (handleSubmit env s) t) =
      if missingRequired s.formData = true then [] else s.selectedImages := by
  cases hm : missingRequired s.formData with
  | true =>
    rw [performedBy_of_eq _ _ _ _ (handleSubmit_invalid env s t hm)]
    simp [uploadCalls]
  | false =>
    have hrun := handleSubmit_valid env s t hm
    have hs : ∀ r : Except JSError Json, uploadCalls (settledEvents r) = [] :=
      uploadCalls_settledEvents
    simp only [uploadCalls] at hs
    by_cases he : s.formData.expiry_date = ""
    · rw [if_pos he, mutate_eq] at hrun
      simp only [List.append_assoc] at hrun
      rw [performedBy_of_eq _ _ _ _ hrun, uploadCalls_append, uploadCalls_uploadStageEvents]
      simp [uploadCalls, hs]
    · rw [if_neg he] at hrun
      cases hd : env.parseDate s.formData.expiry_date with
      | none =>
        rw [hd] at hrun
        simp only [List.append_assoc] at hrun
        rw [performedBy_of_eq _ _ _ _ hrun, uploadCalls_append, uploadCalls_uploadStageEvents]
        simp [uploadCalls]
      | some iso =>
        rw [hd] at hrun
        simp only at hrun
        rw [mutate_eq] at hrun
        simp only [List.append_assoc] at hrun
        rw [performedBy_of_eq _ _ _ _ hrun, uploadCalls_append, uploadCalls_uploadStageEvents]
        simp [uploadCalls, hs]

/-- C19 (as stated, refuted): while a submission of the bread form is in
progress (its first image is being uploaded), a further invocation of
`handleSubmit` is not refused: it calls the upload hook for all three images
again, sends a create-listing request and ends in the success alert. -/
theorem handleSubmit_reentered_runs_again :
    submissionInProgress = (handleSubmit secondUploadFails breadState []).2.take 2 ∧
      uploadCalls (performedBy (handleSubmit secondUploadFails breadState) submissionInProgress) =
        threeImages ∧
      (postedListings
        (performedBy (handleSubmit secondUploadFails breadState) submissionInProgress)).length =
        1 ∧
      (performedBy (handleSubmit secondUploadFails breadState) submissionInProgress).getLast? =
        some (.alert "Success" "Your food donation has been listed!") := by
  exact ⟨by decide, by decide, by decide, by decide⟩

/-- C19 (amended): while `createListingMutation.isLoading` or `uploadLoading`
is true the submit button is disabled and a press performs nothing: no upload
is started and no create-listing request is sent.  When the form is shown and
neither flag is set, a press runs `handleSubmit`, which keeps no state of its
own: whatever was done before, it calls the upload hook and sends the request
exactly as on a first invocation. -/
theorem pressSubmit_disabled_while_loading (env : Env) (s : DonateState) (auth : JSVal)
    (profileLoading : Bool) (userProfile : Option Json) (isLoading uploadLoading : Bool)
    (t : Trace) :
    ((isLoading || uploadLoading) = true →
      performedBy
        (DonateScreen.pressSubmit env s auth profileLoading userProfile isLoading uploadLoading)
        t = []) ∧
    (DonateScreen.view auth profileLoading userProfile = .donationForm →
      (isLoading || uploadLoading) = false →
      DonateScreen.pressSubmit env s auth profileLoading userProfile isLoading uploadLoading =
        handleSubmit env s) ∧
    uploadCalls (performedBy (handleSubmit env s) t) =
      uploadCalls (performedBy (handleSubmit env s) []) ∧
    (postedListings (performedBy (handleSubmit env s) t)).length =
      (postedListings (performedBy (handleSubmit env s) [])).length := by
  refine ⟨?_, ?_, ?_, ?_⟩
  · intro hl
    have hrun : DonateScreen.pressSubmit env s auth profileLoading userProfile isLoading
        uploadLoading t = (.ok (), t ++ []) := by
      unfold DonateScreen.pressSubmit
      cases hv : DonateScreen.view auth profileLoading userProfile <;>
        simp_all [pure, Eff.pure]
    rw [performedBy_of_eq _ _ _ _ hrun]
  · intro hv hl
    unfold DonateScreen.pressSubmit
    simp [hv, hl]
  · rw [uploadCalls_handleSubmit, uploadCalls_handleSubmit]
  · rw [postedListings_handleSubmit, postedListings_handleSubmit]
    cases missingRequired s.formData <;> by_cases he : s.formData.expiry_date = "" <;>
      cases env.parseDate s.formData.expiry_date <;> simp [he]

/-- C19 (amended), at the bread form while images are being uploaded. -/
theorem pressSubmit_disabled_while_loading_witness :
    performedBy
      (DonateScreen.pressSubmit secondUploadFails breadState (.obj "session") false
        (some (.obj [("user_type", .str "donor")])) false true) submissionInProgress = [] :=
  (pressSubmit_disabled_while_loading secondUploadFails breadState (.obj "session") false
    (some (.obj [("user_type", .str "donor")])) false true submissionInProgress).1 rfl

/-! ## Reads in flight -/

theorem step_read_served {α : Type} (st : CacheState α) (k : QueryKey)
    (h : ((st.entries.any fun e => e.key == k && !e.stale) || st.inFlight.contains k) = true) :
    st.step (.read k) = (none, st) := by
  simp only [CacheState.step, h, if_true]

theorem step_read_issued {α : Type} (st : CacheState α) (k : QueryKey)
    (h : ((st.entries.any fun e => e.key == k && !e.stale) || st.inFlight.contains k) = false) :
    st.step (.read k) = (some k, { st with inFlight := k :: st.inFlight }) := by
  simp only [CacheState.step, h, Bool.false_eq_true, if_false]

/-- While the read of a key is in flight and its fetch is not completed, no
operation issues a second fetch for that key. -/
theorem fetches_count_of_inFlight {α : Type} (key : QueryKey) (ops : List (CacheOp α)) :
    ∀ st : CacheState α, key ∈ st.inFlight → (∀ op ∈ ops, op.completes key = false) →
      (st.fetches ops).count key = 0 := by
  induction ops with
  | nil => intro st _ _; rfl
  | cons op rest ih =>
    intro st hin hops
    have hrest : ∀ o ∈ rest, o.completes key = false :=
      fun o ho => hops o (List.mem_cons_of_mem _ ho)
    have hop := hops op (List.mem_cons_self _ _)
    cases op with
    | read k =>
      cases hserved :
          ((st.entries.any fun e => e.key == k && !e.stale) || st.inFlight.contains k) with
      | true =>
        simp only [CacheState.fetches, step_read_served st k hserved]
        exact ih st hin hrest
      | false =>
        have hk : k ≠ key := by
          intro hk
          subst hk
          simp [hin] at hserved
        simp only [CacheState.fetches, step_read_issued st k hserved]
        rw [List.count_cons_of_ne (Ne.symm hk)]
        exact ih _ (List.mem_cons_of_mem _ hin) hrest
    | complete k v =>
      have hk : key ≠ k := by
        intro hk
        subst hk
        simp [CacheOp.completes] at hop
      simp only [CacheState.fetches, CacheState.step]
      apply ih _ _ hrest
      simp [List.mem_filter, hin, hk]
    | invalidate g =>
      simp only [CacheState.fetches, CacheState.step]
      exact ih _ hin hrest

/-- Whatever the cache holds, a sequence of operations that does not complete
the fetch of a key issues at most one fetch for it. -/
theorem fetches_count_le_one {α : Type} (key : QueryKey) (ops : List (CacheOp α)) :
    ∀ st : CacheState α, (∀ op ∈ ops, op.completes key = false) →
      (st.fetches ops).count key ≤ 1 := by
  induction ops with
  | nil => intro st _; simp [CacheState.fetches]
  | cons op rest ih =>
    intro st hops
    have hrest : ∀ o ∈ rest, o.completes key = false :=
      fun o ho => hops o (List.mem_cons_of_mem _ ho)
    cases op with
    | read k =>
      cases hserved :
          ((st.entries.any fun e => e.key == k && !e.stale) || st.inFlight.contains k) with
      | true =>
        simp only [CacheState.fetches, step_read_served st k hserved]
        exact ih st hrest
      | false =>
        simp only [CacheState.fetches, step_read_issued st k hserved]
        by_cases hk : k = key
        · subst hk
          rw [List.count_cons_self,
            fetches_count_of_inFlight k rest _ (List.mem_cons_self _ _) hrest]
        · rw [List.count_cons_of_ne (Ne.symm hk)]
          exact ih _ hrest
    | complete k v =>
      simp only [CacheState.fetches, CacheState.step]
      exact ih _ hrest
    | invalidate g =>
      simp only [CacheState.fetches, CacheState.step]
      exact ih _ hrest

/-- C20: for every listing search, two reads under its cache key of which the
second starts before the fetch of the first has completed issue at most one
fetch for that key, whatever the cache held before and whatever other reads,
completions of other keys and invalidations happen in between. -/
theorem listings_reads_coalesced {α : Type} (st : CacheState α)
    (searchQuery selectedCategory : JSVal) (location : Option Coords)
    (between : List (CacheOp α))
    (h : ∀ op ∈ between,
      op.completes (listingsQueryKey searchQuery selectedCategory location) = false) :
    (st.fetches [.read (listingsQueryKey searchQuery selectedCategory location),
        .read (listingsQueryKey searchQuery selectedCategory location)]).count
      (listingsQueryKey searchQuery selectedCategory location) ≤ 1 ∧
    (st.fetches (.read (listingsQueryKey searchQuery selectedCategory location) :: between ++
        [.read (listingsQueryKey searchQuery selectedCategory location)])).count
      (listingsQueryKey searchQuery selectedCategory location) ≤ 1 := by
  constructor
  · apply fetches_count_le_one
    intro op hop
    simp only [List.mem_cons, List.mem_singleton, List.not_mem_nil, or_false, or_self] at hop
    subst hop
    rfl
  · apply fetches_count_le_one
    intro op hop
    rcases List.mem_append.mp hop with hop | hop
    · rcases List.mem_cons.mp hop with hop | hop
      · subst hop; rfl
      · exact h op hop
    · rw [List.mem_singleton.mp hop]; rfl

/-- C20, on an empty cache, with an invalidation of the listings group
between the two reads: one fetch. -/
theorem listings_reads_coalesced_witness :
    ((⟨[], []⟩ : CacheState Json).fetches
        (.read (listingsQueryKey (.str "bread") (.str "") none) ::
          [.invalidate listingsGroup] ++
          [.read (listingsQueryKey (.str "bread") (.str "") none)])).count
      (listingsQueryKey (.str "bread") (.str "") none) ≤ 1 :=
  (listings_reads_coalesced (⟨[], []⟩ : CacheState Json) (.str "bread") (.str "") none
    [.invalidate listingsGroup] (by
      intro op hop
      simp only [List.mem_singleton] at hop
      subst hop
      rfl)).2

/-! ## The payload of the create request -/

/-- Every payload the handler posts comes from a form that passed validation
and is the object literal built from the state, the urls of the upload step
and the converted expiry date. -/
theorem posted_mem_handleSubmit (env : Env) (s : DonateState) (t : Trace) (p : ListingData)
    (hp : p ∈ postedListings (performedBy (handleSubmit env s) t)) :
    missingRequired s.formData = false ∧
      ((s.formData.expiry_date = "" ∧ p = listingPayload s (uploadStageUrls env s t) none) ∨
        (s.formData.expiry_date ≠ "" ∧ ∃ iso, env.parseDate s.formData.expiry_date = some iso ∧
          p = listingPayload s (uploadStageUrls env s t) (some iso))) := by
  rw [postedListings_handleSubmit] at hp
  cases hm : missingRequired s.formData with
  | true => simp [hm] at hp
  | false =>
    refine ⟨rfl, ?_⟩
    by_cases he : s.formData.expiry_date = ""
    · simp [hm, he] at hp
      exact Or.inl ⟨he, hp⟩
    · cases hd : env.parseDate s.formData.expiry_date with
      | none => simp [hm, he, hd] at hp
      | some iso =>
        simp [hm, he, hd] at hp
        exact Or.inr ⟨he, iso, rfl, hp⟩

/-- C21: in every payload sent to the create endpoint, `expiry_date` is null
when the expiry text of the form is empty, and otherwise is the ISO-8601
string that `new Date(text).toISOString()` gives for that text; so every
payload sent carries null or such a timestamp. -/
theorem payload_expiry_date (env : Env) (s : DonateState) (t : Trace) (p : ListingData)
    (hp : p ∈ postedListings (performedBy (handleSubmit env s) t)) :
    (s.formData.expiry_date = "" → p.expiry_date = none) ∧
    (s.formData.expiry_date ≠ "" →
      ∃ iso, env.parseDate s.formData.expiry_date = some iso ∧ p.expiry_date = some iso) ∧
    (p.expiry_date = none ∨
      ∃ iso, env.parseDate s.formData.expiry_date = some iso ∧ p.expiry_date = some iso) := by
  obtain ⟨_, h | h⟩ := posted_mem_handleSubmit env s t p hp
  · obtain ⟨he, rfl⟩ := h
    exact ⟨fun _ => rfl, fun hne => absurd he hne, Or.inl rfl⟩
  · obtain ⟨he, iso, hiso, rfl⟩ := h
    exact ⟨fun h => absurd h he, fun _ => ⟨iso, hiso, rfl⟩, Or.inr ⟨iso, hiso, rfl⟩⟩

/-- C21, at the bread form with the expiry text "2030-01-31". -/
theorem payload_expiry_date_witness :
    ∃ iso, secondUploadFails.parseDate datedState.formData.expiry_date = some iso ∧
      (listingPayload datedState (uploadStageUrls secondUploadFails datedState [])
        (some "2030-01-31T00:00:00.000Z")).expiry_date = some iso :=
  (payload_expiry_date secondUploadFails datedState []
    (listingPayload datedState (uploadStageUrls secondUploadFails datedState [])
      (some "2030-01-31T00:00:00.000Z")) (by decide)).2.1 (by decide)

theorem storedLocation_append (location : Option Coords) (evs more : List Event) :
    storedLocation location (evs ++ more) = storedLocation (storedLocation location evs) more := by
  simp [storedLocation, List.foldl_append]

/-- C22: in every payload sent to the create endpoint, `pickup_latitude` and
`pickup_longitude` are the latitude and longitude of the stored location when
there is one and are both absent when there is none, so neither comes without
the other; the stored location is the one of the latest `setLocation`. -/
theorem payload_coordinates (env : Env) (s : DonateState) (t : Trace) (p : ListingData)
    (hp : p ∈ postedListings (performedBy (handleSubmit env s) t)) :
    p.pickup_latitude = s.location.map Coords.latitude ∧
    p.pickup_longitude = s.location.map Coords.longitude ∧
    (∀ c, s.location = some c →
      p.pickup_latitude = some c.latitude ∧ p.pickup_longitude = some c.longitude) ∧
    (s.location = none → p.pickup_latitude = none ∧ p.pickup_longitude = none) ∧
    (p.pickup_latitude.isSome = p.pickup_longitude.isSome) ∧
    (∀ (location : Option Coords) (evs tail : List Event) (c : Coords),
      (∀ a, Event.setLocation a ∉ tail) →
      storedLocation location (evs ++ .setLocation c :: tail) = some c) := by
  obtain ⟨h1, h2⟩ := handleSubmit_payload_coordinates env s t p hp
  refine ⟨h1, h2, ?_, ?_, ?_, ?_⟩
  · intro c hc; simp [h1, h2, hc]
  · intro hc; simp [h1, h2, hc]
  · rw [h1, h2]; cases s.location <;> rfl
  · intro location evs tail c htail
    rw [storedLocation_append]
    have := storedLocation_unchanged tail (some c) htail
    simpa [storedLocation] using this

/-- C22, at the bread form with a stored location. -/
theorem payload_coordinates_witness :
    (listingPayload breadState (uploadStageUrls secondUploadFails breadState [])
        none).pickup_latitude = some 52 ∧
      (listingPayload breadState (uploadStageUrls secondUploadFails breadState [])
        none).pickup_longitude = some 13 :=
  (payload_coordinates secondUploadFails breadState []
    (listingPayload breadState (uploadStageUrls secondUploadFails breadState []) none)
    (by decide)).2.2.1 ⟨52, 13⟩ rfl

/-! ## The three ways the submission handler ends -/

/-- One run of the handler ends in the validation alert, or in the create
request with what follows it, or in the error alert of its `catch` block. -/
theorem handleSubmit_performed_cases (env : Env) (s : DonateState) (t : Trace) :
    (missingRequired s.formData = true ∧
      performedBy (handleSubmit env s) t = [.alert "Error" requiredFieldsMessage]) ∨
    (missingRequired s.formData = false ∧
      (s.formData.expiry_date = "" ∨ (env.parseDate s.formData.expiry_date).isSome) ∧
      ∃ p r, performedBy (handleSubmit env s) t =
        uploadStageEvents env s t ++ .consoleLog "Creating listing with data:" ::
          .postListing p :: settledEvents r) ∨
    (missingRequired s.formData = false ∧ s.formData.expiry_date ≠ "" ∧
      env.parseDate s.formData.expiry_date = none ∧
      performedBy (handleSubmit env s) t =
        uploadStageEvents env s t ++
          [.consoleError "Submit error:" (.rangeError env.invalidTimeMessage),
            .alert "Error" ("Failed to create listing: " ++ env.invalidTimeMessage)]) := by
  cases hm : missingRequired s.formData with
  | true =>
    exact Or.inl ⟨rfl, performedBy_of_eq _ _ _ _ (handleSubmit_invalid env s t hm)⟩
  | false =>
    by_cases he : s.formData.expiry_date = ""
    · exact Or.inr (Or.inl ⟨rfl, Or.inl he, _, _, handleSubmit_performs env s t hm (Or.inl he)⟩)
    · cases hd : env.parseDate s.formData.expiry_date with
      | some iso =>
        have hsome : (env.parseDate s.formData.expiry_date).isSome = true := by simp [hd]
        exact Or.inr (Or.inl ⟨rfl, Or.inr (by simp), _, _,
          handleSubmit_performs env s t hm (Or.inr hsome)⟩)
      | none =>
        refine Or.inr (Or.inr ⟨rfl, he, rfl, ?_⟩)
        have hrun := handleSubmit_valid env s t hm
        rw [if_neg he, hd] at hrun
        simp only [List.append_assoc] at hrun
        exact performedBy_of_eq _ _ _ _ hrun

theorem missingRequired_iff (f : FormData) :
    missingRequired f = true ↔
      f.title = "" ∨ f.quantity = "" ∨ f.unit = "" ∨ f.pickup_location = "" := by
  simp [missingRequired, or_assoc]

/-- C24: `handleSubmit` ends in the validation alert exactly for the form
states in which the title, the quantity text, the unit or the pickup location
is the empty string, whatever else the form holds; in those states it calls
no upload and sends no create request, and in all others it goes on to the
upload of the selected images. -/
theorem handleSubmit_validation_iff (env : Env) (s : DonateState) (t : Trace) :
    (performedBy (handleSubmit env s) t = [.alert "Error" requiredFieldsMessage] ↔
      s.formData.title = "" ∨ s.formData.quantity = "" ∨ s.formData.unit = "" ∨
        s.formData.pickup_location = "") ∧
    ((s.formData.title = "" ∨ s.formData.quantity = "" ∨ s.formData.unit = "" ∨
        s.formData.pickup_location = "") →
      uploadCalls (performedBy (handleSubmit env s) t) = [] ∧
        postedListings (performedBy (handleSubmit env s) t) = []) ∧
    (¬(s.formData.title = "" ∨ s.formData.quantity = "" ∨ s.formData.unit = "" ∨
        s.formData.pickup_location = "") →
      uploadCalls (performedBy (handleSubmit env s) t) = s.selectedImages) := by
  rw [← missingRequired_iff]
  refine ⟨⟨?_, ?_⟩, ?_, ?_⟩
  · intro hperf
    rcases handleSubmit_performed_cases env s t with h | h | h
    · exact h.1
    · obtain ⟨_, _, p, r, hp⟩ := h
      rw [hp] at hperf
      have hmem : Event.postListing p ∈ [Event.alert "Error" requiredFieldsMessage] := by
        rw [← hperf]; simp
      simp at hmem
    · obtain ⟨_, _, _, hp⟩ := h
      rw [hp] at hperf
      have hmem : Event.consoleError "Submit error:" (.rangeError env.invalidTimeMessage) ∈
          [Event.alert "Error" requiredFieldsMessage] := by
        rw [← hperf]; simp
      simp at hmem
  · intro hm
    exact performedBy_of_eq _ _ _ _ (handleSubmit_invalid env s t hm)
  · intro hm
    rw [uploadCalls_handleSubmit, postedListings_handleSubmit]
    simp [hm]
  · intro hm
    rw [uploadCalls_handleSubmit]
    simp [hm]

/-- C24, at the bread form with its unit left empty. -/
theorem handleSubmit_validation_iff_witness :
    uploadCalls (performedBy (handleSubmit secondUploadFails noUnitState) []) = [] ∧
      postedListings (performedBy (handleSubmit secondUploadFails noUnitState) []) = [] :=
  (handleSubmit_validation_iff secondUploadFails noUnitState []).2.1
    (Or.inr (Or.inr (Or.inl rfl)))

/-- C25 (as stated, refuted): a form that misses only its unit and a form that
misses only its title get the same message, which names the title, the
quantity and the pickup location of the first form although they are filled
in. -/
theorem validation_message_same_for_different_fields :
    (noUnitState.formData.unit = "" ∧ noUnitState.formData.title ≠ "") ∧
      (noTitleState.formData.title = "" ∧ noTitleState.formData.unit ≠ "") ∧
      alerts (performedBy (handleSubmit secondUploadFails noUnitState) []) =
        alerts (performedBy (handleSubmit secondUploadFails noTitleState) []) ∧
      alerts (performedBy (handleSubmit secondUploadFails noUnitState) []) =
        [("Error",
          "Please fill in all required fields (Title, Quantity, Unit, and Pickup Location)")] := by
  exact ⟨⟨by decide, by decide⟩, ⟨by decide, by decide⟩, by decide, by decide⟩

/-- C25 (amended): when validation fails, the error message shown is always
the same fixed text, which names all four required fields, whichever of them
are missing. -/
theorem validation_message_fixed (env env' : Env) (s s' : DonateState) (t t' : Trace)
    (h : missingRequired s.formData = true) (h' : missingRequired s'.formData = true) :
    alerts (performedBy (handleSubmit env s) t) =
        [("Error",
          "Please fill in all required fields (Title, Quantity, Unit, and Pickup Location)")] ∧
      alerts (performedBy (handleSubmit env s) t) =
        alerts (performedBy (handleSubmit env' s') t') := by
  rw [performedBy_of_eq _ _ _ _ (handleSubmit_invalid env s t h),
    performedBy_of_eq _ _ _ _ (handleSubmit_invalid env' s' t' h')]
  exact ⟨rfl, rfl⟩

/-- C25 (amended), at the forms without unit and without title. -/
theorem validation_message_fixed_witness :
    alerts (performedBy (handleSubmit secondUploadFails noUnitState) []) =
      alerts (performedBy (handleSubmit uploadsThrow noTitleState) submissionInProgress) :=
  (validation_message_fixed secondUploadFails uploadsThrow noUnitState noTitleState []
    submissionInProgress (by decide) (by decide)).2

/-- C26: the create-listing request is sent iff validation passes and the
expiry text is empty or a date; when validation passes and the expiry text
is not empty and not a date, the handler sends no request and ends in the
"Failed to create listing" alert, after the upload hook was called for every
selected image. -/
theorem create_sent_iff_valid_and_dated (env : Env) (s : DonateState) (t : Trace) :
    (postedListings (performedBy (handleSubmit env s) t) ≠ [] ↔
      missingRequired s.formData = false ∧
        (s.formData.expiry_date = "" ∨ (env.parseDate s.formData.expiry_date).isSome)) ∧
    (missingRequired s.formData = false → s.formData.expiry_date ≠ "" →
      env.parseDate s.formData.expiry_date = none →
      postedListings (performedBy (handleSubmit env s) t) = [] ∧
        uploadCalls (performedBy (handleSubmit env s) t) = s.selectedImages ∧
        (performedBy (handleSubmit env s) t).getLast? =
          some (.alert "Error" ("Failed to create listing: " ++ env.invalidTimeMessage))) := by
  constructor
  · rw [postedListings_handleSubmit]
    cases hm : missingRequired s.formData <;> by_cases he : s.formData.expiry_date = "" <;>
      cases hd : env.parseDate s.formData.expiry_date <;> simp [he]
  · intro hm he hd
    refine ⟨?_, ?_, ?_⟩
    · rw [postedListings_handleSubmit]; simp [hm, he, hd]
    · rw [uploadCalls_handleSubmit]; simp [hm]
    · rcases handleSubmit_performed_cases env s t with h | h | h
      · rw [hm] at h; exact absurd h.1 (by simp)
      · rcases h.2.1 with h1 | h1
        · exact absurd h1 he
        · rw [hd] at h1; simp at h1
      · rw [h.2.2.2]; simp

/-- C26, at the bread form with the expiry text "next week". -/
theorem create_sent_iff_valid_and_dated_witness :
    postedListings (performedBy (handleSubmit secondUploadFails badExpiryState) []) = [] ∧
      uploadCalls (performedBy (handleSubmit secondUploadFails badExpiryState) []) =
        threeImages :=
  have h := (create_sent_iff_valid_and_dated secondUploadFails badExpiryState []).2
    (by decide) (by decide) (by decide)
  ⟨h.1, h.2.1⟩

/-- C23 (the code at the failing input): a listing without `distance_km` shows
its pickup location alone, and a listing at a distance other than 0 shows the
"km away" suffix; but at the distance 0 the `&&` of the location line yields
the number 0, so the line is the pickup location followed by the text "0",
without the suffix. -/
theorem locationLine_zero_distance (toFixed1 : Rat → String) (pickup : String) (d : Rat) :
    locationLine toFixed1 ⟨pickup, some 0⟩ = pickup ++ "0" ∧
      locationLine toFixed1 ⟨"12 Main St", some 0⟩ = "12 Main St0" ∧
      locationLine toFixed1 ⟨pickup, none⟩ = pickup ∧
      locationLine toFixed1 ⟨pickup, some d⟩ =
        (if d = 0 then pickup ++ "0" else pickup ++ (" • " ++ toFixed1 d ++ "km away")) := by
  refine ⟨by simp [locationLine], by simp [locationLine], by simp [locationLine], ?_⟩
  by_cases hd : d = 0 <;> simp [locationLine, hd]

theorem successUrl_eq_nil_iff (outcomes : List UploadOutcome) :
    outcomes.filterMap UploadOutcome.successUrl = [] ↔
      ∀ o ∈ outcomes, o.succeeded = false := by
  induction outcomes with
  | nil => simp
  | cons o rest ih =>
    cases o with
    | threw e =>
      simp [UploadOutcome.successUrl, UploadOutcome.succeeded, List.filterMap_cons, ih]
    | resolved url error =>
      cases hc : truthy error <;>
        simp [UploadOutcome.successUrl, UploadOutcome.succeeded, List.filterMap_cons, hc, ih]

/-- C27: in every payload sent to the create endpoint, `image_urls` is null
iff no upload succeeded (no image selected, or all failed) and is otherwise
the non-empty list that `uploadImages` returned; it is never the empty list,
and the `image_urls` held in the form state has no influence on what the
handler does. -/
theorem payload_image_urls (env : Env) (s : DonateState) (t : Trace) (p : ListingData)
    (hp : p ∈ postedListings (performedBy (handleSubmit env s) t)) :
    (p.image_urls = none ↔
      ∀ o ∈ outcomesFrom env (uploadCount t) s.selectedImages, o.succeeded = false) ∧
    p.image_urls =
      (if uploadStageUrls env s t = [] then none else some (uploadStageUrls env s t)) ∧
    p.image_urls ≠ some [] ∧
    (uploadImages env s.selectedImages (t ++ [.consoleLog "Uploading images..."])).1 =
      .ok (uploadStageUrls env s t) ∧
    (s.selectedImages = [] → p.image_urls = none) ∧
    (∀ urls : List JSVal,
      handleSubmit env { s with formData := { s.formData with image_urls := urls } } t =
        handleSubmit env s t) := by
  have hurls : p.image_urls =
      (if uploadStageUrls env s t = [] then none else some (uploadStageUrls env s t)) := by
    obtain ⟨_, h | h⟩ := posted_mem_handleSubmit env s t p hp
    · obtain ⟨_, rfl⟩ := h
      cases hu : uploadStageUrls env s t <;> simp [listingPayload, hu]
    · obtain ⟨_, iso, _, rfl⟩ := h
      cases hu : uploadStageUrls env s t <;> simp [listingPayload, hu]
  have hcount : uploadCount (t ++ [Event.consoleLog "Uploading images..."]) = uploadCount t := by
    simp [uploadCount]
  refine ⟨?_, hurls, ?_, ?_, ?_, fun _ => rfl⟩
  · rw [hurls, ← successUrl_eq_nil_iff]
    unfold uploadStageUrls
    cases (outcomesFrom env (uploadCount t) s.selectedImages).filterMap
      UploadOutcome.successUrl <;> simp
  · rw [hurls]
    cases hu : uploadStageUrls env s t <;> simp
  · rw [uploadImages_eq, hcount]
    rfl
  · intro hnone
    rw [hurls]
    simp [uploadStageUrls, outcomesFrom, hnone]

/-- C27, at the bread form with three images of which the second upload
fails. -/
theorem payload_image_urls_witness :
    (listingPayload breadState (uploadStageUrls secondUploadFails breadState []) none).image_urls =
        (if uploadStageUrls secondUploadFails breadState [] = [] then none
          else some (uploadStageUrls secondUploadFails breadState [])) ∧
      (listingPayload breadState (uploadStageUrls secondUploadFails breadState [])
        none).image_urls ≠ some [] :=
  have h := payload_image_urls secondUploadFails breadState []
    (listingPayload breadState (uploadStageUrls secondUploadFails breadState []) none)
    (by decide)
  ⟨h.2.1, h.2.2.1⟩

/-! ## The form state -/

/-- The form setter only ever touches `pickup_location`. -/
theorem formAfter_other_fields (evs : List Event) :
    ∀ f : FormData,
      (formAfter f evs).title = f.title ∧ (formAfter f evs).description = f.description ∧
      (formAfter f evs).category_id = f.category_id ∧ (formAfter f evs).quantity = f.quantity ∧
      (formAfter f evs).unit = f.unit ∧ (formAfter f evs).expiry_date = f.expiry_date ∧
      (formAfter f evs).pickup_instructions = f.pickup_instructions ∧
      (formAfter f evs).safety_notes = f.safety_notes ∧
      (formAfter f evs).dietary_info = f.dietary_info ∧
      (formAfter f evs).image_urls = f.image_urls := by
  induction evs with
  | nil => intro f; simp [formAfter]
  | cons ev rest ih =>
    intro f
    have h := ih (f.apply ev)
    simp only [formAfter, List.foldl_cons] at h ⊢
    cases ev <;> simpa [FormData.apply] using h

/-- The latest write to `pickup_location` wins. -/
theorem formAfter_autofill_last (f : FormData) (evs : List Event) (line : String) :
    (formAfter f (evs ++ [.setPickupLocation line])).pickup_location = line := by
  simp [formAfter, List.foldl_append, FormData.apply]

/-- Actions that set no state leave the form as it is. -/
theorem formAfter_unchanged (evs : List Event) :
    ∀ f : FormData, (∀ ev ∈ evs, ev.isStateUpdate = false) → formAfter f evs = f := by
  induction evs with
  | nil => intro f _; rfl
  | cons ev rest ih =>
    intro f h
    have hev := h ev (List.mem_cons_self _ _)
    have hrest := ih f (fun e he => h e (List.mem_cons_of_mem _ he))
    simp only [formAfter, List.foldl_cons] at hrest ⊢
    cases ev <;> simp_all [FormData.apply, Event.isStateUpdate]

/-- C28 (the code at the failing input): the effect is created by the first
render, so the form it tests is the initial, empty one and the lookup is
always made; when the user types "5 Elm Rd" after the position was read and
before the reverse-geocode result arrives, the auto-fill that follows
replaces the typed text by the address line. -/
theorem autofill_overwrites_typed_text :
    performedBy (DonateScreen.locationEffect geocoderUp emptyForm) [] =
        [.requestPermission, .getCurrentPosition, .setLocation ⟨52, 13⟩,
          .reverseGeocode ⟨52, 13⟩, .setPickupLocation "1 Main St Springfield, IL"] ∧
      (formAfter emptyForm
        [.requestPermission, .getCurrentPosition, .setLocation ⟨52, 13⟩,
          .setPickupLocation "5 Elm Rd"]).pickup_location = "5 Elm Rd" ∧
      (formAfter emptyForm
        [.requestPermission, .getCurrentPosition, .setLocation ⟨52, 13⟩,
          .setPickupLocation "5 Elm Rd", .reverseGeocode ⟨52, 13⟩,
          .setPickupLocation "1 Main St Springfield, IL"]).pickup_location =
        "1 Main St Springfield, IL" := by
  refine ⟨?_, by decide, by decide⟩
  apply performedBy_of_trace
  simp [DonateScreen.locationEffect, requestForegroundPermissions, getCurrentPosition,
    reverseGeocode, geocoderUp, emptyForm, bind, Eff.bind, pure, Eff.pure, emit]
  decide

theorem loopEvents_no_state_update (env : Env) (images : List Asset) :
    ∀ k : Nat, ∀ ev ∈ loopEvents env k images, ev.isStateUpdate = false := by
  induction images with
  | nil => intro k ev h; simp [loopEvents] at h
  | cons image rest ih =>
    intro k ev h
    have hrest := ih (k + 1)
    simp only [loopEvents] at hrest h
    simp only [List.enumFrom_cons, List.flatMap_cons, List.mem_append, List.mem_cons] at h
    rcases h with (h | h) | h
    · subst h; rfl
    · cases hf : (env.upload k image).failure with
      | none => simp [hf] at h
      | some e =>
        simp [hf] at h
        subst h; rfl
    · exact hrest ev h

theorem uploadStageEvents_no_state_update (env : Env) (s : DonateState) (t : Trace) :
    ∀ ev ∈ uploadStageEvents env s t, ev.isStateUpdate = false := by
  intro ev h
  unfold uploadStageEvents at h
  split at h
  · simp only [List.mem_cons, List.mem_append, List.mem_singleton, List.not_mem_nil,
      or_false] at h
    rcases h with (h | h) | h
    · subst h; rfl
    · exact loopEvents_no_state_update env _ _ ev h
    · subst h; rfl
  · simp at h

theorem settledEvents_no_state_update (r : Except JSError Json) :
    ∀ ev ∈ settledEvents r, ev.isStateUpdate = false := by
  intro ev h
  cases r <;> simp [settledEvents] at h
  · subst h; rfl
  · rcases h with h | h | h | h <;> subst h <;> rfl

/-- The submission handler sets no component state. -/
theorem handleSubmit_no_state_update (env : Env) (s : DonateState) (t : Trace) :
    ∀ ev ∈ performedBy (handleSubmit env s) t, ev.isStateUpdate = false := by
  intro ev h
  rcases handleSubmit_performed_cases env s t with hc | hc | hc
  · rw [hc.2] at h
    simp at h
    subst h; rfl
  · obtain ⟨_, _, p, r, hp⟩ := hc
    rw [hp] at h
    simp only [List.mem_append, List.mem_cons] at h
    rcases h with h | h | h | h
    · exact uploadStageEvents_no_state_update env s t ev h
    · subst h; rfl
    · subst h; rfl
    · exact settledEvents_no_state_update r ev h
  · rw [hc.2.2.2] at h
    simp only [List.mem_append, List.mem_cons, List.mem_singleton, List.not_mem_nil,
      or_false] at h
    rcases h with h | h | h
    · exact uploadStageEvents_no_state_update env s t ev h
    · subst h; rfl
    · subst h; rfl

/-- C29: every payload sent to the create endpoint carries title,
description, category_id, unit, pickup_location, pickup_instructions,
safety_notes and dietary_info as they stand in the form state; quantity,
image_urls and expiry_date are derived (by `parseInt`, from the uploads and
from the date conversion), pickup_latitude and pickup_longitude come from the
stored location, and the handler leaves the form state unchanged. -/
theorem payload_copies_form_fields (env : Env) (s : DonateState) (t : Trace) (p : ListingData)
    (hp : p ∈ postedListings (performedBy (handleSubmit env s) t)) :
    (p.title = s.formData.title ∧ p.description = s.formData.description ∧
      p.category_id = s.formData.category_id ∧ p.unit = s.formData.unit ∧
      p.pickup_location = s.formData.pickup_location ∧
      p.pickup_instructions = s.formData.pickup_instructions ∧
      p.safety_notes = s.formData.safety_notes ∧ p.dietary_info = s.formData.dietary_info) ∧
    p.quantity = parseInt s.formData.quantity ∧
    p.image_urls =
      (if (uploadStageUrls env s t).length > 0 then some (uploadStageUrls env s t) else none) ∧
    p.expiry_date =
      (if s.formData.expiry_date = "" then none else env.parseDate s.formData.expiry_date) ∧
    p.pickup_latitude = s.location.map Coords.latitude ∧
    p.pickup_longitude = s.location.map Coords.longitude ∧
    formAfter s.formData (performedBy (handleSubmit env s) t) = s.formData ∧
    (∀ ev ∈ performedBy (handleSubmit env s) t, ev.isStateUpdate = false) := by
  have hstate := handleSubmit_no_state_update env s t
  obtain ⟨_, h | h⟩ := posted_mem_handleSubmit env s t p hp
  · obtain ⟨he, rfl⟩ := h
    exact ⟨⟨rfl, rfl, rfl, rfl, rfl, rfl, rfl, rfl⟩, rfl, rfl, by simp [listingPayload, he], rfl,
      rfl, formAfter_unchanged _ _ hstate, hstate⟩
  · obtain ⟨he, iso, hiso, rfl⟩ := h
    exact ⟨⟨rfl, rfl, rfl, rfl, rfl, rfl, rfl, rfl⟩, rfl, rfl,
      by simp [listingPayload, he, hiso], rfl, rfl, formAfter_unchanged _ _ hstate, hstate⟩

/-- C29, at the bread form. -/
theorem payload_copies_form_fields_witness :
    (listingPayload breadState (uploadStageUrls secondUploadFails breadState []) none).title =
        breadState.formData.title ∧
      formAfter breadState.formData (performedBy (handleSubmit secondUploadFails breadState) []) =
        breadState.formData :=
  have h := payload_copies_form_fields secondUploadFails breadState []
    (listingPayload breadState (uploadStageUrls secondUploadFails breadState []) none)
    (by decide)
  ⟨h.1.1, h.2.2.2.2.2.2.1⟩

/-! ## Profile setup -/

/-- The call `updateProfileMutation.mutate` in closed form. -/
theorem profile_mutate_eq (env : Env) (data : ProfileData) (t : Trace) :
    updateProfileMutation.mutate env data t =
      (.ok (), t ++ .postProfile data ::
        profileSettledEvents (settle env "Failed to update profile" (env.updateProfile data))) := by
  unfold updateProfileMutation.mutate
  rw [updateProfile_mutationFn_eq]
  cases settle env "Failed to update profile" (env.updateProfile data) <;>
    simp [profileSettledEvents, updateProfileMutation.onSuccess, updateProfileMutation.onError,
      emit, bind, Eff.bind]

/-- The actions of the profile handler, by the state of the two required
fields. -/
theorem profile_handleSubmit_performs (env : Env) (s : ProfileSetupState) (t : Trace) :
    performedBy (ProfileSetupScreen.handleSubmit env s) t =
      if s.formData.user_type = "" then
        [.alert "Error" "Please select whether you want to donate or receive food"]
      else if s.formData.full_name = "" then [.alert "Error" "Please enter your full name"]
      else
        .postProfile (profilePayload s) ::
          profileSettledEvents
            (settle env "Failed to update profile" (env.updateProfile (profilePayload s))) := by
  by_cases hu : s.formData.user_type = ""
  · rw [if_pos hu]
    apply performedBy_of_eq _ _ (.ok ())
    simp [ProfileSetupScreen.handleSubmit, hu, emit]
  · rw [if_neg hu]
    by_cases hf : s.formData.full_name = ""
    · rw [if_pos hf]
      apply performedBy_of_eq _ _ (.ok ())
      simp [ProfileSetupScreen.handleSubmit, hu, hf, emit]
    · rw [if_neg hf]
      apply performedBy_of_eq _ _ (.ok ())
      have := profile_mutate_eq env (profilePayload s) t
      simpa [ProfileSetupScreen.handleSubmit, hu, hf, profilePayload] using this

theorem postedProfiles_profileSettledEvents (r : Except JSError Json) :
    postedProfiles (profileSettledEvents r) = [] := by
  cases r <;> simp [profileSettledEvents, postedProfiles]

/-- C30: the `handleSubmit` of profile setup sends the profile request iff
`user_type` and `full_name` are both non-empty; with an empty `user_type` it
only raises the user-type alert (also when `full_name` is empty), with only
`full_name` empty it only raises the full-name alert; the payload sent is the
six form fields unchanged with the latitude and longitude of the stored
location, and on success exactly the group `userProfile` is invalidated, on
failure none. -/
theorem profile_handleSubmit_spec (env : Env) (s : ProfileSetupState) (t : Trace) :
    (postedProfiles (performedBy (ProfileSetupScreen.handleSubmit env s) t) ≠ [] ↔
      s.formData.user_type ≠ "" ∧ s.formData.full_name ≠ "") ∧
    (s.formData.user_type = "" →
      performedBy (ProfileSetupScreen.handleSubmit env s) t =
        [.alert "Error" "Please select whether you want to donate or receive food"]) ∧
    (s.formData.user_type ≠ "" → s.formData.full_name = "" →
      performedBy (ProfileSetupScreen.handleSubmit env s) t =
        [.alert "Error" "Please enter your full name"]) ∧
    (∀ p ∈ postedProfiles (performedBy (ProfileSetupScreen.handleSubmit env s) t),
      p.user_type = s.formData.user_type ∧ p.full_name = s.formData.full_name ∧
      p.phone = s.formData.phone ∧ p.address = s.formData.address ∧
      p.organization_name = s.formData.organization_name ∧
      p.organization_type = s.formData.organization_type ∧
      p.latitude = s.location.map Coords.latitude ∧
      p.longitude = s.location.map Coords.longitude) ∧
    (s.formData.user_type ≠ "" → s.formData.full_name ≠ "" →
      postedProfiles (performedBy (ProfileSetupScreen.handleSubmit env s) t) =
          [profilePayload s] ∧
        invalidated (performedBy (ProfileSetupScreen.handleSubmit env s) t) =
          (match (updateProfileMutation.mutationFn env (profilePayload s) t).1 with
          | .ok _ => [userProfileGroup]
          | .error _ => [])) := by
  rw [profile_handleSubmit_performs]
  have hs := postedProfiles_profileSettledEvents
    (settle env "Failed to update profile" (env.updateProfile (profilePayload s)))
  simp only [postedProfiles] at hs
  refine ⟨?_, ?_, ?_, ?_, ?_⟩
  · by_cases hu : s.formData.user_type = "" <;> by_cases hf : s.formData.full_name = "" <;>
      simp [hu, hf, postedProfiles, hs]
  · intro hu; simp [hu]
  · intro hu hf; simp [hu, hf]
  · intro p hp
    by_cases hu : s.formData.user_type = "" <;> by_cases hf : s.formData.full_name = "" <;>
      simp [hu, hf, postedProfiles, hs] at hp
    subst hp
    exact ⟨rfl, rfl, rfl, rfl, rfl, rfl, rfl, rfl⟩
  · intro hu hf
    rw [updateProfile_mutationFn_eq]
    refine ⟨by simp [hu, hf, postedProfiles, hs], ?_⟩
    cases settle env "Failed to update profile" (env.updateProfile (profilePayload s)) <;>
      simp [hu, hf, profileSettledEvents, invalidated]

/-- C30, at a donor's filled-in profile form. -/
theorem profile_handleSubmit_spec_witness :
    postedProfiles (performedBy (ProfileSetupScreen.handleSubmit secondUploadFails donorProfile)
      []) = [profilePayload donorProfile] :=
  ((profile_handleSubmit_spec secondUploadFails donorProfile []).2.2.2.2 (by decide)
    (by decide)).1

/-! ## The quantity as a double, the invalidations by answer, the cache with reads in flight -/

/-- The quantity sent is a double: a text above 2^53 is rounded to the nearest
one, ties to the even significand. -/
theorem parseInt_rounds_to_double :
    parseInt "9007199254740993" = some 9007199254740992 ∧
      parseInt "9007199254740995" = some 9007199254740996 ∧
      parseInt "12" = some 12 ∧ parseInt "0" = some 0 ∧ parseInt "abc" = none := by
  exact ⟨by decide, by decide, by decide, by decide, by decide⟩

/-- C7 (as stated, refuted): the server stores the listing and answers 201
with an empty body; `response.json()` rejects, so no cache group is
invalidated and the error alert is raised although the request succeeded. -/
theorem created_without_body_invalidates_nothing :
    Response.ok ⟨201, .invalid "JSON Parse error: Unexpected end of input"⟩ = true ∧
      performedBy
          (createListingMutation.mutate createdWithoutBody (listingPayload breadState [] none))
          [] =
        [.postListing (listingPayload breadState [] none),
          .alert "Error" "JSON Parse error: Unexpected end of input"] ∧
      invalidated
        (performedBy
          (createListingMutation.mutate createdWithoutBody (listingPayload breadState [] none))
          []) = [] := by
  exact ⟨by decide, by decide, by decide⟩

/-- C7 (amended): when the create-listing request is answered 2xx with a body
that parses as JSON, exactly the groups `listings`, `recentListings` and
`userStats` are invalidated, in that order, before the success alert is
raised; when the request is rejected, answered non-2xx, or answered with a
body that does not parse, no cache group is invalidated and the error alert
is raised. -/
theorem createListingMutation_invalidates_on_parsed_success (env : Env)
    (listingData : ListingData) (t : Trace) :
    (∀ r body, env.createListing listingData = .resolved r → r.ok = true →
      r.body = .parsed body →
      performedBy (createListingMutation.mutate env listingData) t =
          [.postListing listingData, .invalidateQueries listingsGroup,
            .invalidateQueries recentListingsGroup, .invalidateQueries userStatsGroup,
            .alert "Success" "Your food donation has been listed!"] ∧
        invalidated (performedBy (createListingMutation.mutate env listingData) t) =
          [listingsGroup, recentListingsGroup, userStatsGroup]) ∧
    (∀ r message, env.createListing listingData = .resolved r → r.body = .invalid message →
      performedBy (createListingMutation.mutate env listingData) t =
          [.postListing listingData, .alert "Error" message] ∧
        invalidated (performedBy (createListingMutation.mutate env listingData) t) = []) ∧
    (∀ r, env.createListing listingData = .resolved r → r.ok = false →
      invalidated (performedBy (createListingMutation.mutate env listingData) t) = [] ∧
        ∃ message, performedBy (createListingMutation.mutate env listingData) t =
          [.postListing listingData, .alert "Error" message]) ∧
    (∀ message, env.createListing listingData = .rejected message →
      performedBy (createListingMutation.mutate env listingData) t =
          [.postListing listingData, .alert "Error" message] ∧
        invalidated (performedBy (createListingMutation.mutate env listingData) t) = []) := by
  rw [performedBy_of_eq _ _ _ _ (mutate_eq env listingData t)]
  refine ⟨?_, ?_, ?_, ?_⟩
  · intro r body hr hok hb
    simp [hr, settle, hb, hok, settledEvents, invalidated]
  · intro r message hr hb
    simp [hr, settle, hb, settledEvents, invalidated, JSError.message]
  · intro r hr hok
    rw [hr]
    cases hb : r.body with
    | invalid m =>
      exact ⟨by simp [settle, hb, settledEvents, invalidated],
        ⟨m, by simp [settle, hb, settledEvents, JSError.message]⟩⟩
    | parsed j =>
      by_cases hj : j = .null
      · exact ⟨by simp [settle, hb, hok, hj, settledEvents, invalidated],
          ⟨_, by simp [settle, hb, hok, hj, settledEvents, JSError.message]; rfl⟩⟩
      · exact ⟨by simp [settle, hb, hok, hj, settledEvents, invalidated],
          ⟨_, by simp [settle, hb, hok, hj, settledEvents, JSError.message]; rfl⟩⟩
  · intro message hr
    simp [hr, settle, settledEvents, invalidated, JSError.message]

/-- C7 (amended), at a server that answers 201 with the created listing. -/
theorem createListingMutation_invalidates_on_parsed_success_witness :
    invalidated
      (performedBy
        (createListingMutation.mutate secondUploadFails (listingPayload breadState [] none)) []) =
      [listingsGroup, recentListingsGroup, userStatsGroup] :=
  ((createListingMutation_invalidates_on_parsed_success secondUploadFails
    (listingPayload breadState [] none) []).1 ⟨201, .parsed (.obj [("id", .num 7)])⟩
    (.obj [("id", .num 7)]) rfl (by decide) rfl).2

/-- After `invalidate(group)` no fresh entry is left under a key of the
group. -/
theorem no_fresh_entry_after_invalidate {α : Type} (group key : QueryKey)
    (entries : QueryCache α) (h : belongsTo group key = true) :
    (QueryCache.invalidate group entries).any (fun e => e.key == key && !e.stale) = false := by
  rw [List.any_eq_false]
  intro x hx
  simp only [QueryCache.invalidate, List.mem_map] at hx
  obtain ⟨e, _, rfl⟩ := hx
  by_cases hb : belongsTo group e.key = true
  · simp [hb]
  · by_cases hk : e.key = key
    · exact absurd (hk ▸ h) hb
    · simp [hb, hk]

/-- C8 (as stated, refuted): a listing search is cached, its group is
invalidated and a read refetches it; while that fetch is in flight the group
is invalidated again, as after a create, and the next read of the key joins
the fetch in flight instead of fetching again: three reads, two fetches. -/
theorem listings_read_joins_fetch_in_flight :
    (CacheState.after (⟨[], []⟩ : CacheState Json)
        [.read (listingsQueryKey (.str "bread") (.str "") none),
          .complete (listingsQueryKey (.str "bread") (.str "") none) (.arr []),
          .invalidate listingsGroup,
          .read (listingsQueryKey (.str "bread") (.str "") none)]).inFlight =
      [listingsQueryKey (.str "bread") (.str "") none] ∧
    (((CacheState.after (⟨[], []⟩ : CacheState Json)
        [.read (listingsQueryKey (.str "bread") (.str "") none),
          .complete (listingsQueryKey (.str "bread") (.str "") none) (.arr []),
          .invalidate listingsGroup,
          .read (listingsQueryKey (.str "bread") (.str "") none)]).step
        (.invalidate listingsGroup)).2.step
      (.read (listingsQueryKey (.str "bread") (.str "") none))).1 = none ∧
    (⟨[], []⟩ : CacheState Json).fetches
        [.read (listingsQueryKey (.str "bread") (.str "") none),
          .complete (listingsQueryKey (.str "bread") (.str "") none) (.arr []),
          .invalidate listingsGroup,
          .read (listingsQueryKey (.str "bread") (.str "") none),
          .invalidate listingsGroup,
          .read (listingsQueryKey (.str "bread") (.str "") none)] =
      [listingsQueryKey (.str "bread") (.str "") none,
        listingsQueryKey (.str "bread") (.str "") none] := by
  exact ⟨by decide, by decide, by decide⟩

/-- C8 (amended): for every search text, category and location the key of the
listing search starts with the element "listings", which is the group the
`onSuccess` of the create-listing mutation invalidates, so the key belongs to
that group; after the invalidation the next read of such a key, cached before
or not, fetches again unless a read of that key is in flight, which it
joins. -/
theorem listingsQueryKey_refetched_unless_in_flight (searchQuery selectedCategory : JSVal)
    (location : Option Coords) (t : Trace) :
    (∃ rest, listingsQueryKey searchQuery selectedCategory location =
      .val (.str "listings") :: rest) ∧
    listingsGroup <+: listingsQueryKey searchQuery selectedCategory location ∧
    belongsTo listingsGroup (listingsQueryKey searchQuery selectedCategory location) = true ∧
    listingsGroup ∈ invalidated (performedBy createListingMutation.onSuccess t) ∧
    (∀ (α : Type) (st : CacheState α),
      ((st.step (.invalidate listingsGroup)).2.step
          (.read (listingsQueryKey searchQuery selectedCategory location))).1 =
        if st.inFlight.contains (listingsQueryKey searchQuery selectedCategory location) then none
        else some (listingsQueryKey searchQuery selectedCategory location)) := by
  have hb : belongsTo listingsGroup (listingsQueryKey searchQuery selectedCategory location) =
      true := by
    simp [belongsTo, listingsGroup, listingsQueryKey, List.isPrefixOf]
  refine ⟨⟨_, rfl⟩, ⟨_, rfl⟩, hb, ?_, fun α st => ?_⟩
  · simp [performedBy, createListingMutation.onSuccess, emit, bind, Eff.bind, invalidated]
  · have hfresh := no_fresh_entry_after_invalidate listingsGroup _ st.entries hb
    by_cases hin : listingsQueryKey searchQuery selectedCategory location ∈ st.inFlight <;>
      simp [CacheState.step, hfresh, hin]

/-! ## The discover screen state -/

/-- C10: the listing-search key is canonical. The screen holds an absent text
and an absent category as the empty string and in no other way, so a search
sends no `search` and no `category` parameter iff its key is the key of the
"show all" search at its location; whatever was searched before, once the
text is emptied and "All" is pressed the key is that key again; and two
searches at one location that send the same request have the same key. -/
theorem discover_queryKey_canonical (numberToString : Rat → String) (s s' : DiscoverState) :
    ((s.apply (.changeText "")).apply .pressAll).queryKey =
      listingsQueryKey (.str "") (.str "") s.location ∧
    (("search" ∉ (s.queryParams numberToString).map Prod.fst ∧
        "category" ∉ (s.queryParams numberToString).map Prod.fst) ↔
      s.queryKey = listingsQueryKey (.str "") (.str "") s.location) ∧
    DiscoverState.initial.queryKey = listingsQueryKey (.str "") (.str "") none ∧
    (s.location = s'.location → s.queryParams numberToString = s'.queryParams numberToString →
      s.queryKey = s'.queryKey) := by
  obtain ⟨text, category, location⟩ := s
  obtain ⟨text', category', location'⟩ := s'
  refine ⟨rfl, ?_, rfl, ?_⟩
  · by_cases ht : text = "" <;> by_cases hc : category = "" <;> cases location <;>
      simp [DiscoverState.queryParams, DiscoverState.queryKey, listingsQueryParams,
        listingsQueryKey, truthy, jsToString, ht, hc]
  · intro hloc hparams
    simp only at hloc
    subst hloc
    by_cases ht : text = "" <;> by_cases hc : category = "" <;>
      by_cases ht' : text' = "" <;> by_cases hc' : category' = "" <;> cases location <;>
      simp_all [DiscoverState.queryParams, DiscoverState.queryKey, listingsQueryParams,
        listingsQueryKey, truthy, jsToString]

/-- C10, at a search for "bread" in a category: once the text is emptied and
"All" is pressed, the search sends the request of the "show all" search at
the same location and has its key. -/
theorem discover_queryKey_canonical_witness :
    ((breadSearch.apply (.changeText "")).apply .pressAll).queryKey =
      (DiscoverState.initial.apply (.setLocation ⟨52, 13⟩)).queryKey :=
  (discover_queryKey_canonical (fun _ => "0")
    ((breadSearch.apply (.changeText "")).apply .pressAll)
    (DiscoverState.initial.apply (.setLocation ⟨52, 13⟩))).2.2.2 rfl rfl

end HH3
